import Mathlib

/-!
Verification development for the DOtunnel Tunnel Session
(`dotunnel-cloudflare/src/app/transport/protocol.ts` and the `TunnelSession`
Durable Object). The wire layer mirrors the Cap'n Proto schema
`message.capnp`; the Cap'n Proto runtime itself is treated as a faithful
record store, so an encoded message is modelled as the structured value the
encoder writes (field setters truncate to the schema's integer widths), and
`decodeEnvelope` is the repository's decoding switch over that value.
-/

namespace DOTunnel

/-- Byte strings (JS `Uint8Array` / Cap'n Proto `Data`), one natural per byte. -/
abbrev Bytes := List Nat

/-- Truncation performed by a Cap'n Proto `UInt16` field setter. -/
def u16 (n : Nat) : Nat := n % 65536

/-- Truncation performed by a Cap'n Proto `UInt32` field setter. -/
def u32 (n : Nat) : Nat := n % 4294967296

/-- Truncation performed by a Cap'n Proto `UInt64` field setter. -/
def u64 (n : Nat) : Nat := n % 18446744073709551616

/-- `protocol.ts`: maximum concurrent streams per tunnel. -/
def MAX_CONCURRENT_STREAMS : Nat := 100

/-- `protocol.ts`: request timeout in milliseconds. -/
def REQUEST_TIMEOUT_MS : Nat := 30000

/-- `message.capnp` enum `HttpVersion`. -/
inductive HttpVersion
  | h1 | h2
deriving DecidableEq, Repr

/-- `message.capnp` enum `AbortReason`. -/
inductive AbortReason
  | unknown | timeout | peerClosed | resetByPeer | connectionLost
  | cancelled | protocolError | flowControl | overload
deriving DecidableEq, Repr

/-- `message.capnp` enum `WebSocketOpcode`. -/
inductive WebSocketOpcode
  | continuation | text | binary | close | ping | pong
deriving DecidableEq, Repr

/-- `message.capnp` struct `Header`: header name text plus value bytes. -/
structure Header where
  name : String
  value : Bytes
deriving DecidableEq, Repr

/-- `message.capnp` struct `HttpRequestInit`. -/
structure HttpRequestInit where
  timestampMs : Nat
  method : String
  uri : String
  version : HttpVersion
  headers : List Header
  hasBody : Bool
deriving DecidableEq, Repr

/-- `message.capnp` struct `HttpBodyChunk`. -/
structure HttpBodyChunk where
  timestampMs : Nat
  data : Bytes
  seq : Nat
  isLast : Bool
deriving DecidableEq, Repr

/-- `message.capnp` struct `HttpRequestEnd`. -/
structure HttpRequestEnd where
  timestampMs : Nat
deriving DecidableEq, Repr

/-- `message.capnp` struct `HttpRequestAbort`. -/
structure HttpRequestAbort where
  timestampMs : Nat
  reason : AbortReason
  detail : String
deriving DecidableEq, Repr

/-- `message.capnp` struct `HttpResponseInit`. -/
structure HttpResponseInit where
  timestampMs : Nat
  status : Nat
  headers : List Header
  hasBody : Bool
  contentLength : Nat
deriving DecidableEq, Repr

/-- `message.capnp` struct `HttpInterimResponse` (103 Early Hints). -/
structure HttpInterimResponse where
  timestampMs : Nat
  status : Nat
  headers : List Header
deriving DecidableEq, Repr

/-- `message.capnp` struct `HttpTrailers`. -/
structure HttpTrailers where
  timestampMs : Nat
  headers : List Header
deriving DecidableEq, Repr

/-- `message.capnp` struct `HttpResponseEnd`. -/
structure HttpResponseEnd where
  timestampMs : Nat
deriving DecidableEq, Repr

/-- `message.capnp` struct `HttpResponseAbort`. -/
structure HttpResponseAbort where
  timestampMs : Nat
  reason : AbortReason
  detail : String
deriving DecidableEq, Repr

/-- `message.capnp` union `HttpMessage` with its eleven variants. -/
inductive HttpMessage
  | requestInit (v : HttpRequestInit)
  | requestBodyChunk (v : HttpBodyChunk)
  | requestTrailers (v : HttpTrailers)
  | requestEnd (v : HttpRequestEnd)
  | requestAbort (v : HttpRequestAbort)
  | responseInit (v : HttpResponseInit)
  | responseInterim (v : HttpInterimResponse)
  | responseBodyChunk (v : HttpBodyChunk)
  | responseTrailers (v : HttpTrailers)
  | responseEnd (v : HttpResponseEnd)
  | responseAbort (v : HttpResponseAbort)
deriving DecidableEq, Repr

/-- `message.capnp` struct `WebSocketFrame`. -/
structure WebSocketFrame where
  timestampMs : Nat
  fin : Bool
  rsv1 : Bool
  rsv2 : Bool
  rsv3 : Bool
  opcode : WebSocketOpcode
  masked : Bool
  maskKey : Nat
  payload : Bytes
  closeCode : Nat
deriving DecidableEq, Repr

/-- `message.capnp` struct `Ping`. -/
structure Ping where
  timestampMs : Nat
  data : Bytes
deriving DecidableEq, Repr

/-- `message.capnp` struct `Pong`. -/
structure Pong where
  timestampMs : Nat
  data : Bytes
deriving DecidableEq, Repr

/-- `message.capnp` struct `FlowWindowUpdate`. -/
structure FlowWindowUpdate where
  timestampMs : Nat
  availableSendBytes : Nat
deriving DecidableEq, Repr

/-- `message.capnp` struct `ErrorReport`. -/
structure ErrorReport where
  timestampMs : Nat
  code : Nat
  message : String
deriving DecidableEq, Repr

/-- `message.capnp` struct `GoAway`. -/
structure GoAway where
  timestampMs : Nat
  lastMsgSeq : Nat
  reason : String
deriving DecidableEq, Repr

/-- `message.capnp` union `Control`. -/
inductive Control
  | ping (v : Ping)
  | pong (v : Pong)
  | flowWindowUpdate (v : FlowWindowUpdate)
  | error (v : ErrorReport)
  | goAway (v : GoAway)
deriving DecidableEq, Repr

/-- The `Envelope` union body {http, ws, control}. -/
inductive EnvelopeBody
  | http (m : HttpMessage)
  | ws (f : WebSocketFrame)
  | control (c : Control)
deriving DecidableEq, Repr

/-- `message.capnp` struct `Envelope`: the outer frame around every message. -/
structure Envelope where
  timestampMs : Nat
  connectionId : Nat
  streamId : Nat
  msgSeq : Nat
  body : EnvelopeBody
deriving DecidableEq, Repr

/-! ### Encoding functions (`protocol.ts`)

Each encoder takes `now` for the `Date.now()` call it performs, and header
values already as bytes (the `TextEncoder` output the source computes). -/

/-- `protocol.ts` `encodeHttpRequestInit`. -/
def encodeHttpRequestInit (now connectionId streamId msgSeq : Nat)
    (method uri : String) (headers : List (String × Bytes)) (hasBody : Bool) :
    Envelope :=
  { timestampMs := u64 now
    connectionId := u64 connectionId
    streamId := u32 streamId
    msgSeq := u32 msgSeq
    body := .http (.requestInit
      { timestampMs := u64 now
        method := method
        uri := uri
        version := .h1
        headers := headers.map fun h => { name := h.1, value := h.2 }
        hasBody := hasBody }) }

/-- `protocol.ts` `encodeHttpBodyChunk` (`isRequest` selects the variant). -/
def encodeHttpBodyChunk (now connectionId streamId msgSeq : Nat)
    (data : Bytes) (seq : Nat) (isLast : Bool) (isRequest : Bool) : Envelope :=
  { timestampMs := u64 now
    connectionId := u64 connectionId
    streamId := u32 streamId
    msgSeq := u32 msgSeq
    body := .http (if isRequest then
      .requestBodyChunk
        { timestampMs := u64 now, data := data, seq := u32 seq, isLast := isLast }
    else
      .responseBodyChunk
        { timestampMs := u64 now, data := data, seq := u32 seq, isLast := isLast }) }

/-- `protocol.ts` `encodeHttpRequestEnd`. -/
def encodeHttpRequestEnd (now connectionId streamId msgSeq : Nat) : Envelope :=
  { timestampMs := u64 now
    connectionId := u64 connectionId
    streamId := u32 streamId
    msgSeq := u32 msgSeq
    body := .http (.requestEnd { timestampMs := u64 now }) }

/-- `protocol.ts` `encodeHttpRequestAbort`. -/
def encodeHttpRequestAbort (now connectionId streamId msgSeq : Nat)
    (reason : AbortReason) (detail : String) : Envelope :=
  { timestampMs := u64 now
    connectionId := u64 connectionId
    streamId := u32 streamId
    msgSeq := u32 msgSeq
    body := .http (.requestAbort
      { timestampMs := u64 now, reason := reason, detail := detail }) }

/-- `protocol.ts` `encodeHttpResponseInit`. -/
def encodeHttpResponseInit (now connectionId streamId msgSeq : Nat)
    (status : Nat) (headers : List (String × Bytes)) (hasBody : Bool)
    (contentLength : Option Nat) : Envelope :=
  { timestampMs := u64 now
    connectionId := u64 connectionId
    streamId := u32 streamId
    msgSeq := u32 msgSeq
    body := .http (.responseInit
      { timestampMs := u64 now
        status := u16 status
        headers := headers.map fun h => { name := h.1, value := h.2 }
        hasBody := hasBody
        contentLength := u64 (contentLength.getD 0) }) }

/-- `protocol.ts` `encodeHttpResponseEnd`. -/
def encodeHttpResponseEnd (now connectionId streamId msgSeq : Nat) : Envelope :=
  { timestampMs := u64 now
    connectionId := u64 connectionId
    streamId := u32 streamId
    msgSeq := u32 msgSeq
    body := .http (.responseEnd { timestampMs := u64 now }) }

/-- `protocol.ts` `encodeHttpResponseAbort`. -/
def encodeHttpResponseAbort (now connectionId streamId msgSeq : Nat)
    (reason : AbortReason) (detail : String) : Envelope :=
  { timestampMs := u64 now
    connectionId := u64 connectionId
    streamId := u32 streamId
    msgSeq := u32 msgSeq
    body := .http (.responseAbort
      { timestampMs := u64 now, reason := reason, detail := detail }) }

/-- `protocol.ts` `encodeWebSocketFrame`; `fin` defaults to true, the
`closeCode` field keeps its schema default 0 unless supplied. -/
def encodeWebSocketFrame (now connectionId streamId msgSeq : Nat)
    (opcode : WebSocketOpcode) (payload : Bytes) (fin : Option Bool)
    (closeCode : Option Nat) : Envelope :=
  { timestampMs := u64 now
    connectionId := u64 connectionId
    streamId := u32 streamId
    msgSeq := u32 msgSeq
    body := .ws
      { timestampMs := u64 now
        fin := fin.getD true
        rsv1 := false
        rsv2 := false
        rsv3 := false
        opcode := opcode
        masked := false
        maskKey := 0
        payload := payload
        closeCode := match closeCode with
          | some c => u16 c
          | none => 0 } }

/-- `protocol.ts` `encodeControlPing`: `streamId` and `msgSeq` are fixed 0. -/
def encodeControlPing (now connectionId : Nat) (data : Option Bytes) : Envelope :=
  { timestampMs := u64 now
    connectionId := u64 connectionId
    streamId := 0
    msgSeq := 0
    body := .control (.ping { timestampMs := u64 now, data := data.getD [] }) }

/-- `protocol.ts` `encodeControlPong`: `streamId` and `msgSeq` are fixed 0. -/
def encodeControlPong (now connectionId : Nat) (data : Option Bytes) : Envelope :=
  { timestampMs := u64 now
    connectionId := u64 connectionId
    streamId := 0
    msgSeq := 0
    body := .control (.pong { timestampMs := u64 now, data := data.getD [] }) }

/-- `protocol.ts` `encodeControlError`: `streamId` and `msgSeq` are fixed 0. -/
def encodeControlError (now connectionId code : Nat) (message : String) :
    Envelope :=
  { timestampMs := u64 now
    connectionId := u64 connectionId
    streamId := 0
    msgSeq := 0
    body := .control (.error
      { timestampMs := u64 now, code := u32 code, message := message }) }

/-- `protocol.ts` `encodeControlGoAway`: `streamId` and `msgSeq` are fixed 0;
the current global sequence travels only in the body's `lastMsgSeq`. -/
def encodeControlGoAway (now connectionId lastMsgSeq : Nat) (reason : String) :
    Envelope :=
  { timestampMs := u64 now
    connectionId := u64 connectionId
    streamId := 0
    msgSeq := 0
    body := .control (.goAway
      { timestampMs := u64 now, lastMsgSeq := u32 lastMsgSeq, reason := reason }) }

/-! ### Decoded representation (`protocol.ts` `Decoded*` types) -/

/-- `protocol.ts` `DecodedHttpRequestInit`. -/
structure DecodedHttpRequestInit where
  timestampMs : Nat
  method : String
  uri : String
  version : HttpVersion
  headers : List Header
  hasBody : Bool
deriving DecidableEq, Repr

/-- `protocol.ts` `DecodedHttpResponseInit`. -/
structure DecodedHttpResponseInit where
  timestampMs : Nat
  status : Nat
  headers : List Header
  hasBody : Bool
  contentLength : Nat
deriving DecidableEq, Repr

/-- `protocol.ts` `DecodedHttpBodyChunk`. -/
structure DecodedHttpBodyChunk where
  timestampMs : Nat
  data : Bytes
  seq : Nat
  isLast : Bool
deriving DecidableEq, Repr

/-- `protocol.ts` `DecodedHttpMessage`: the eight variants the decoder
produces (the abort variants carry no timestamp in the decoded form). -/
inductive DecodedHttpMessage
  | requestInit (data : DecodedHttpRequestInit)
  | requestBodyChunk (data : DecodedHttpBodyChunk)
  | requestEnd (timestampMs : Nat)
  | requestAbort (reason : AbortReason) (detail : String)
  | responseInit (data : DecodedHttpResponseInit)
  | responseBodyChunk (data : DecodedHttpBodyChunk)
  | responseEnd (timestampMs : Nat)
  | responseAbort (reason : AbortReason) (detail : String)
deriving DecidableEq, Repr

/-- `protocol.ts` `DecodedWebSocketFrame`; `closeCode` is present only for
close frames. -/
structure DecodedWebSocketFrame where
  timestampMs : Nat
  opcode : WebSocketOpcode
  fin : Bool
  payload : Bytes
  closeCode : Option Nat
deriving DecidableEq, Repr

/-- `protocol.ts` `DecodedControl`. -/
inductive DecodedControl
  | ping (timestampMs : Nat) (data : Bytes)
  | pong (timestampMs : Nat) (data : Bytes)
  | error (timestampMs : Nat) (code : Nat) (message : String)
  | goAway (timestampMs : Nat) (lastMsgSeq : Nat) (reason : String)
deriving DecidableEq, Repr

/-- `protocol.ts` `DecodedEnvelope`: tagged by http/ws/control, carrying
`streamId`, `connectionId`, `msgSeq` (the outer timestamp is not decoded). -/
inductive DecodedEnvelope
  | http (streamId connectionId msgSeq : Nat) (http : DecodedHttpMessage)
  | ws (streamId connectionId msgSeq : Nat) (ws : DecodedWebSocketFrame)
  | control (streamId connectionId msgSeq : Nat) (control : DecodedControl)
deriving DecidableEq, Repr

/-- `protocol.ts` `decodeHttpMessage`: the switch handles eight variants;
`requestTrailers`, `responseInterim` and `responseTrailers` fall to the
default branch, which throws. -/
def decodeHttpMessage : HttpMessage → Except String DecodedHttpMessage
  | .requestInit i => .ok (.requestInit
      { timestampMs := i.timestampMs, method := i.method, uri := i.uri
        version := i.version, headers := i.headers, hasBody := i.hasBody })
  | .requestBodyChunk c => .ok (.requestBodyChunk
      { timestampMs := c.timestampMs, data := c.data, seq := c.seq
        isLast := c.isLast })
  | .requestEnd e => .ok (.requestEnd e.timestampMs)
  | .requestAbort a => .ok (.requestAbort a.reason a.detail)
  | .responseInit i => .ok (.responseInit
      { timestampMs := i.timestampMs, status := i.status, headers := i.headers
        hasBody := i.hasBody, contentLength := i.contentLength })
  | .responseBodyChunk c => .ok (.responseBodyChunk
      { timestampMs := c.timestampMs, data := c.data, seq := c.seq
        isLast := c.isLast })
  | .responseEnd e => .ok (.responseEnd e.timestampMs)
  | .responseAbort a => .ok (.responseAbort a.reason a.detail)
  | .requestTrailers _ => .error "Unknown HTTP message type"
  | .responseInterim _ => .error "Unknown HTTP message type"
  | .responseTrailers _ => .error "Unknown HTTP message type"

/-- `protocol.ts` `decodeWebSocketFrame`: `closeCode` is surfaced only when
the opcode is CLOSE. -/
def decodeWebSocketFrame (f : WebSocketFrame) : DecodedWebSocketFrame :=
  { timestampMs := f.timestampMs
    opcode := f.opcode
    fin := f.fin
    payload := f.payload
    closeCode := if f.opcode = .close then some f.closeCode else none }

/-- `protocol.ts` `decodeControl`: `flowWindowUpdate` falls to the default
branch, which throws. -/
def decodeControl : Control → Except String DecodedControl
  | .ping p => .ok (.ping p.timestampMs p.data)
  | .pong p => .ok (.pong p.timestampMs p.data)
  | .error e => .ok (.error e.timestampMs e.code e.message)
  | .goAway g => .ok (.goAway g.timestampMs g.lastMsgSeq g.reason)
  | .flowWindowUpdate _ => .error "Unknown control message type"

/-- `protocol.ts` `decodeEnvelope`: dispatch on the outer union. -/
def decodeEnvelope (e : Envelope) : Except String DecodedEnvelope :=
  match e.body with
  | .http m => (decodeHttpMessage m).map
      (DecodedEnvelope.http e.streamId e.connectionId e.msgSeq)
  | .ws f => .ok (.ws e.streamId e.connectionId e.msgSeq (decodeWebSocketFrame f))
  | .control c => (decodeControl c).map
      (DecodedEnvelope.control e.streamId e.connectionId e.msgSeq)

/-! ### Session layer (`TunnelSession` Durable Object, Document.tsx)

State is explicit; JS `Map`s become association lists in insertion order
(`Map.set` replaces in place or appends, `Map.delete` erases, `size` is the
length). Sockets are identifiers; their `readyState` at the moment an event
is processed is supplied by a `World`. The runtime's timer table is carried
as `armedTimers` (set and not yet cleared or fired); each stream creation
draws a ghost `token` naming its promise/writer/timer closures in effects.
`console.log` calls are not modelled; `console.error` becomes `logError`. -/

/-- JS `Map.get`. -/
def mget {α : Type} : List (Nat × α) → Nat → Option α
  | [], _ => none
  | (k2, v) :: rest, k => if k2 = k then some v else mget rest k

/-- JS `Map.set` (replace in place, else append). -/
def mset {α : Type} : List (Nat × α) → Nat → α → List (Nat × α)
  | [], k, v => [(k, v)]
  | (k2, v2) :: rest, k, v =>
      if k2 = k then (k2, v) :: rest else (k2, v2) :: mset rest k v

/-- JS `Map.delete` (keys are unique, so erasing the first entry suffices). -/
def mdelete {α : Type} : List (Nat × α) → Nat → List (Nat × α)
  | [], _ => []
  | (k2, v2) :: rest, k => if k2 = k then rest else (k2, v2) :: mdelete rest k

/-- Document.tsx `PendingHttpStream`; `token` is the ghost identity of the
stream's promise/writer/timeout closures, `reqBodySeq` carries
`streamRequestBody`'s local `seq` counter. -/
structure PendingHttpStream where
  streamId : Nat
  token : Nat
  responseStarted : Bool
  responseStatus : Option Nat
  responseHeaders : Option (List Header)
  msgSeq : Nat
  reqBodySeq : Nat
  pendingWsUpgrade : Option Nat
deriving DecidableEq, Repr

/-- Document.tsx `ClientWsStream`. -/
structure ClientWsStream where
  streamId : Nat
  socketId : Nat
  msgSeq : Nat
deriving DecidableEq, Repr

/-- Which `setTimeout` callback a timer runs: `proxyHttpRequest`'s request
timeout, or `handleClientWebSocket`'s upgrade timeout (capturing the public
server socket). -/
inductive TimerKind
  | httpTimeout
  | wsUpgradeTimeout (serverSocket : Nat)
deriving DecidableEq, Repr

/-- One armed timer: its closure token, the captured `streamId`, its kind. -/
structure TimerRec where
  token : Nat
  streamId : Nat
  kind : TimerKind
deriving DecidableEq, Repr

/-- The mutable fields of the `TunnelSession` class plus the runtime timer
table and the ghost token supply. -/
structure SessionState where
  cliSocket : Option Nat
  connectionId : Nat
  tunnelPublicId : Option String
  tunnelUrl : Option String
  pendingHttpStreams : List (Nat × PendingHttpStream)
  clientWsStreams : List (Nat × ClientWsStream)
  nextStreamId : Nat
  globalMsgSeq : Nat
  armedTimers : List TimerRec
  nextToken : Nat
deriving DecidableEq, Repr

/-- External facts at the moment an event is processed: `Date.now()` and
each socket's `readyState === OPEN`. -/
structure World where
  nowMs : Nat
  isOpen : Nat → Bool

/-- `this.cliSocket && this.cliSocket.readyState === WebSocket.OPEN`. -/
def SessionState.cliOpen (s : SessionState) (w : World) : Bool :=
  match s.cliSocket with
  | some sock => w.isOpen sock
  | none => false

/-- Observable actions the session performs. -/
inductive Effect
  | sendCli (frame : Envelope)
  | sendCliText (msg : String)
  | closeSocket (socket : Nat) (code : Nat) (reason : String)
  | sendClientText (socket : Nat) (payload : Bytes)
  | sendClientBinary (socket : Nat) (payload : Bytes)
  | acceptWebSocket (socket : Nat)
  | setTimer (token : Nat) (ms : Nat)
  | clearTimer (token : Nat)
  | writerWrite (token : Nat) (data : Bytes)
  | writerClose (token : Nat)
  | writerAbort (token : Nat) (message : String)
  | resolveResponse (token : Nat) (status : Nat) (hasBody : Bool)
      (headers : List Header)
  | rejectResponse (token : Nat) (message : String)
  | logError (message : String)
  | dbUpdateStatus (publicId : String) (status : String)
deriving DecidableEq, Repr

/-- What a `fetch` entry point returns to its caller. -/
inductive FetchResult
  | response (status : Nat) (body : String)
  | upgraded (clientSocket : Nat)
  | promise (token : Nat)
deriving DecidableEq, Repr

/-- A public request as the session sees it (`uri` is `pathname + search`,
header values already `TextEncoder`-encoded). -/
structure HttpRequestIn where
  method : String
  pathAndQuery : String
  headers : List (String × Bytes)
  hasBody : Bool
deriving DecidableEq, Repr

/-- A message arriving on the CLI socket: text JSON or a binary envelope. -/
inductive CliMessage
  | text (s : String)
  | binary (wire : Envelope)
deriving DecidableEq, Repr

/-- A message arriving on a public client WebSocket. -/
inductive ClientMessage
  | text (s : String)
  | binary (b : Bytes)
deriving DecidableEq, Repr

/-- UTF-8 bytes of a string (`TextEncoder`). -/
def utf8Bytes (s : String) : Bytes := s.toUTF8.toList.map (fun b => b.toNat)

/-- Remove the timer with the given closure token (`clearTimeout`). -/
def disarm (ts : List TimerRec) (token : Nat) : List TimerRec :=
  ts.filter fun t => !(t.token == token)

/-- The per-stream effects of Document.tsx `failAllPendingStreams`'s loop:
clear the stream's timer, then abort a started writer or reject an
unstarted promise. -/
def failEffects : List (Nat × PendingHttpStream) → String → List Effect
  | [], _ => []
  | kv :: rest, reason =>
      Effect.clearTimer kv.2.token ::
        (if kv.2.responseStarted then Effect.writerAbort kv.2.token reason
         else Effect.rejectResponse kv.2.token reason) ::
        failEffects rest reason

/-- Document.tsx `failAllPendingStreams`: clear each pending stream's timer,
abort started writers, reject unstarted promises, then clear the map. -/
def failAllPendingStreams (s : SessionState) (reason : String) :
    SessionState × List Effect :=
  let toks := s.pendingHttpStreams.map fun kv => kv.2.token
  ({ s with
      pendingHttpStreams := [],
      armedTimers := s.armedTimers.filter fun t => !(toks.contains t.token) },
   failEffects s.pendingHttpStreams reason)

/-- The `tunnel_ready` JSON handshake text (`JSON.stringify` output). -/
def tunnelReadyJson (connectionId : Nat) (tunnelUrl : String) : String :=
  "\x7b\"type\":\"tunnel_ready\",\"connectionId\":\"" ++ toString connectionId ++
    "\",\"tunnelUrl\":\"" ++ tunnelUrl ++ "\"\x7d"

/-- Document.tsx `handleCliConnect`: validate headers, displace an open CLI
socket with goAway + close(1000), fail pending streams with
"CLI reconnected", adopt the new socket, rotate `connectionId`, reset
counters, send the handshake, mark the tunnel online. -/
def handleCliConnect (w : World) (s : SessionState)
    (tunnelPublicId tunnelUrl : Option String) (newSocket : Nat) :
    SessionState × List Effect × FetchResult :=
  match tunnelPublicId, tunnelUrl with
  | some tid, some turl =>
    if tid.isEmpty || turl.isEmpty then
      (s, [], .response 400 "Missing tunnel metadata")
    else
      let closeEffs :=
        match s.cliSocket with
        | some old =>
            if w.isOpen old then
              [Effect.sendCli (encodeControlGoAway w.nowMs s.connectionId
                  s.globalMsgSeq "Replaced by new connection"),
               Effect.closeSocket old 1000 "Replaced by new connection"]
            else []
        | none => []
      let (s1, failEffs) := failAllPendingStreams s "CLI reconnected"
      let s2 := { s1 with
        cliSocket := some newSocket,
        tunnelPublicId := some tid,
        tunnelUrl := some turl,
        connectionId := w.nowMs,
        nextStreamId := 1,
        globalMsgSeq := 0 }
      (s2,
       closeEffs ++ failEffs ++
         [Effect.acceptWebSocket newSocket,
          Effect.sendCliText (tunnelReadyJson s2.connectionId turl),
          Effect.dbUpdateStatus tid "online"],
       .upgraded newSocket)
  | _, _ => (s, [], .response 400 "Missing tunnel metadata")

/-- Document.tsx `proxyHttpRequest`: 502 when the CLI is not open, 503 when
`pendingHttpStreams.size` is at the cap, otherwise allocate a stream, arm
the deadline, emit `requestInit` (and `requestEnd` when there is no body). -/
def proxyHttpRequest (w : World) (s : SessionState) (req : HttpRequestIn) :
    SessionState × List Effect × FetchResult :=
  if !(s.cliOpen w) then (s, [], .response 502 "Tunnel offline")
  else if s.pendingHttpStreams.length ≥ MAX_CONCURRENT_STREAMS then
    (s, [], .response 503 "Too many concurrent requests")
  else
    let streamId := s.nextStreamId
    let token := s.nextToken
    let stream : PendingHttpStream :=
      { streamId := streamId, token := token, responseStarted := false
        responseStatus := none, responseHeaders := none
        msgSeq := 0, reqBodySeq := 0, pendingWsUpgrade := none }
    let s1 := { s with
      nextStreamId := s.nextStreamId + 1,
      nextToken := s.nextToken + 1,
      pendingHttpStreams := mset s.pendingHttpStreams streamId stream,
      armedTimers :=
        ({ token := token, streamId := streamId, kind := .httpTimeout } : TimerRec)
          :: s.armedTimers }
    let initMsg := encodeHttpRequestInit w.nowMs s.connectionId streamId
      s1.globalMsgSeq req.method req.pathAndQuery req.headers req.hasBody
    let s2 := { s1 with globalMsgSeq := s1.globalMsgSeq + 1 }
    if req.hasBody then
      (s2, [.setTimer token REQUEST_TIMEOUT_MS, .sendCli initMsg], .promise token)
    else
      let endMsg := encodeHttpRequestEnd w.nowMs s2.connectionId streamId
        s2.globalMsgSeq
      ({ s2 with globalMsgSeq := s2.globalMsgSeq + 1 },
       [.setTimer token REQUEST_TIMEOUT_MS, .sendCli initMsg, .sendCli endMsg],
       .promise token)

/-- One iteration of Document.tsx `streamRequestBody`'s read loop; `item` is
the reader's yield (`none` = done). The loop breaks silently when the stream
was cancelled or the CLI socket is gone. -/
def streamRequestBodyStep (w : World) (s : SessionState) (streamId : Nat)
    (item : Option Bytes) : SessionState × List Effect :=
  match mget s.pendingHttpStreams streamId with
  | none => (s, [])
  | some st =>
    if !(s.cliOpen w) then (s, [])
    else match item with
      | none =>
          let endMsg := encodeHttpRequestEnd w.nowMs s.connectionId streamId
            s.globalMsgSeq
          ({ s with globalMsgSeq := s.globalMsgSeq + 1 }, [.sendCli endMsg])
      | some bytes =>
          let chunkMsg := encodeHttpBodyChunk w.nowMs s.connectionId streamId
            s.globalMsgSeq bytes st.reqBodySeq false true
          ({ s with
              globalMsgSeq := s.globalMsgSeq + 1,
              pendingHttpStreams := mset s.pendingHttpStreams streamId
                { st with reqBodySeq := st.reqBodySeq + 1 } },
           [.sendCli chunkMsg])

/-- Document.tsx `streamRequestBody`'s catch branch: on a read error, send
`requestAbort(cancelled, message)` if the CLI is open and the stream lives. -/
def streamRequestBodyError (w : World) (s : SessionState) (streamId : Nat)
    (message : String) : SessionState × List Effect :=
  if s.cliOpen w && (mget s.pendingHttpStreams streamId).isSome then
    ({ s with globalMsgSeq := s.globalMsgSeq + 1 },
     [.sendCli (encodeHttpRequestAbort w.nowMs s.connectionId streamId
        s.globalMsgSeq .cancelled message)])
  else (s, [])

/-- Document.tsx `handleClientWebSocket`: 502 when the CLI is not open, 503
when `|HTTP| + |WS|` is at the cap, otherwise pair the public socket,
register a pending-upgrade HTTP stream, arm the upgrade deadline and emit
`requestInit` with `hasBody = false`. -/
def handleClientWebSocket (w : World) (s : SessionState) (req : HttpRequestIn)
    (serverSocket : Nat) : SessionState × List Effect × FetchResult :=
  if !(s.cliOpen w) then (s, [], .response 502 "Tunnel offline")
  else if s.pendingHttpStreams.length + s.clientWsStreams.length ≥
      MAX_CONCURRENT_STREAMS then
    (s, [], .response 503 "Too many concurrent connections")
  else
    let streamId := s.nextStreamId
    let token := s.nextToken
    let stream : PendingHttpStream :=
      { streamId := streamId, token := token, responseStarted := false
        responseStatus := none, responseHeaders := none
        msgSeq := 0, reqBodySeq := 0, pendingWsUpgrade := some serverSocket }
    let s1 := { s with
      nextStreamId := s.nextStreamId + 1,
      nextToken := s.nextToken + 1,
      pendingHttpStreams := mset s.pendingHttpStreams streamId stream,
      armedTimers :=
        ({ token := token, streamId := streamId,
           kind := .wsUpgradeTimeout serverSocket } : TimerRec) :: s.armedTimers }
    let initMsg := encodeHttpRequestInit w.nowMs s.connectionId streamId
      s1.globalMsgSeq req.method req.pathAndQuery req.headers false
    ({ s1 with globalMsgSeq := s1.globalMsgSeq + 1 },
     [.acceptWebSocket serverSocket, .setTimer token REQUEST_TIMEOUT_MS,
      .sendCli initMsg],
     .upgraded serverSocket)

/-- Document.tsx `handleHttpMessage`: response frames from the CLI for a
pending stream; unknown stream ids are dropped, request-direction variants
have no switch case and fall through. -/
def handleHttpMessage (w : World) (s : SessionState) (streamId : Nat)
    (http : DecodedHttpMessage) : SessionState × List Effect :=
  match mget s.pendingHttpStreams streamId with
  | none => (s, [])
  | some stream =>
    match http with
    | .responseInit data =>
        let stream1 := { stream with
          responseStatus := some data.status,
          responseHeaders := some data.headers,
          responseStarted := true }
        match stream.pendingWsUpgrade with
        | some clientSock =>
            let s1 := { s with armedTimers := disarm s.armedTimers stream.token }
            if data.status = 101 then
              ({ s1 with
                  clientWsStreams := mset s1.clientWsStreams streamId
                    { streamId := streamId, socketId := clientSock, msgSeq := 0 },
                  pendingHttpStreams := mdelete s1.pendingHttpStreams streamId },
               [.clearTimer stream.token])
            else
              ({ s1 with
                  pendingHttpStreams := mdelete s1.pendingHttpStreams streamId },
               .clearTimer stream.token ::
                 (if w.isOpen clientSock then
                    [.closeSocket clientSock 1002
                      ("Upstream rejected: " ++ toString data.status)]
                  else []))
        | none =>
            ({ s with
                pendingHttpStreams :=
                  mset s.pendingHttpStreams streamId stream1 },
             [.resolveResponse stream.token data.status data.hasBody data.headers])
    | .responseBodyChunk data =>
        if stream.responseStarted then (s, [.writerWrite stream.token data.data])
        else (s, [])
    | .responseEnd _ =>
        ({ s with
            armedTimers := disarm s.armedTimers stream.token,
            pendingHttpStreams := mdelete s.pendingHttpStreams streamId },
         .clearTimer stream.token ::
           (if stream.responseStarted then [.writerClose stream.token] else []))
    | .responseAbort _ detail =>
        match stream.pendingWsUpgrade with
        | some clientSock =>
            ({ s with
                armedTimers := disarm s.armedTimers stream.token,
                pendingHttpStreams := mdelete s.pendingHttpStreams streamId },
             .clearTimer stream.token ::
               (if w.isOpen clientSock then
                  [.closeSocket clientSock 1011
                    (if detail.isEmpty then "WebSocket upgrade failed" else detail)]
                else []))
        | none =>
            ({ s with
                armedTimers := disarm s.armedTimers stream.token,
                pendingHttpStreams := mdelete s.pendingHttpStreams streamId },
             [.clearTimer stream.token,
              if stream.responseStarted then
                .writerAbort stream.token
                  (if detail.isEmpty then "Response aborted" else detail)
              else
                .rejectResponse stream.token
                  (if detail.isEmpty then "Response aborted" else detail)])
    | _ => (s, [])

/-- Document.tsx `handleWebSocketFrame`: forward CLI frames to the public
client socket. -/
def handleWebSocketFrame (w : World) (s : SessionState) (streamId : Nat)
    (frame : DecodedWebSocketFrame) : SessionState × List Effect :=
  match mget s.clientWsStreams streamId with
  | none => (s, [])
  | some cs =>
    if !(w.isOpen cs.socketId) then (s, [])
    else match frame.opcode with
      | .text => (s, [.sendClientText cs.socketId frame.payload])
      | .binary => (s, [.sendClientBinary cs.socketId frame.payload])
      | .close =>
          ({ s with clientWsStreams := mdelete s.clientWsStreams streamId },
           [.closeSocket cs.socketId (frame.closeCode.getD 1000) ""])
      | .ping => (s, [.sendClientBinary cs.socketId frame.payload])
      | .pong => (s, [])
      | .continuation => (s, [])

/-- Document.tsx `handleControlMessage`: answer pings with a pong, log
errors, ignore pong and goAway. -/
def handleControlMessage (w : World) (s : SessionState)
    (control : DecodedControl) : SessionState × List Effect :=
  match control with
  | .ping _ data =>
      if s.cliOpen w then
        (s, [.sendCli (encodeControlPong w.nowMs s.connectionId (some data))])
      else (s, [])
  | .pong _ _ => (s, [])
  | .error _ code msg =>
      (s, [.logError ("CLI error: code=" ++ toString code ++ " message=" ++ msg)])
  | .goAway _ _ _ => (s, [])

/-- Document.tsx `handleDecodedEnvelope`. -/
def handleDecodedEnvelope (w : World) (s : SessionState)
    (envelope : DecodedEnvelope) : SessionState × List Effect :=
  match envelope with
  | .http streamId _ _ http => handleHttpMessage w s streamId http
  | .ws streamId _ _ frame => handleWebSocketFrame w s streamId frame
  | .control _ _ _ control => handleControlMessage w s control

/-- Document.tsx `handleCliMessage`: JSON text is parsed and ignored; a
binary frame that fails to decode is logged and dropped. -/
def handleCliMessage (w : World) (s : SessionState) (message : CliMessage) :
    SessionState × List Effect :=
  match message with
  | .text _ => (s, [])
  | .binary wire =>
      match decodeEnvelope wire with
      | .ok envelope => handleDecodedEnvelope w s envelope
      | .error e =>
          (s, [.logError ("Failed to decode message from CLI: " ++ e)])

/-- Document.tsx `handleClientWsMessage`: wrap a public client message as a
`ws` frame with a fresh `msgSeq` and forward it to the CLI. -/
def handleClientWsMessage (w : World) (s : SessionState) (streamId : Nat)
    (message : ClientMessage) : SessionState × List Effect :=
  if !(s.cliOpen w) then (s, [])
  else match mget s.clientWsStreams streamId with
    | none => (s, [])
    | some _ =>
      let opcode := match message with
        | .text _ => WebSocketOpcode.text
        | .binary _ => WebSocketOpcode.binary
      let payload := match message with
        | .text str => utf8Bytes str
        | .binary b => b
      let frame := encodeWebSocketFrame w.nowMs s.connectionId streamId
        s.globalMsgSeq opcode payload (some true) none
      ({ s with globalMsgSeq := s.globalMsgSeq + 1 }, [.sendCli frame])

/-- The close(1001) effects of Document.tsx `handleCliDisconnect`'s loop
over open client WebSockets. -/
def closeClientEffects (w : World) : List (Nat × ClientWsStream) → List Effect
  | [] => []
  | kv :: rest =>
      if w.isOpen kv.2.socketId then
        Effect.closeSocket kv.2.socketId 1001 "Tunnel closed" ::
          closeClientEffects w rest
      else closeClientEffects w rest

/-- Document.tsx `handleCliDisconnect`: mark offline, drop the socket, fail
pending HTTP streams with "CLI disconnected", close client sockets (1001). -/
def handleCliDisconnect (w : World) (s : SessionState) (_code : Nat)
    (_reason : String) : SessionState × List Effect :=
  let dbEffs := match s.tunnelPublicId with
    | some tid => [Effect.dbUpdateStatus tid "offline"]
    | none => []
  let s1 := { s with cliSocket := none }
  let (s2, failEffs) := failAllPendingStreams s1 "CLI disconnected"
  let closeEffs := closeClientEffects w s2.clientWsStreams
  ({ s2 with clientWsStreams := [] }, dbEffs ++ failEffs ++ closeEffs)

/-- Document.tsx `handleClientWsClose`: remove the stream and notify the CLI
with a `ws` CLOSE frame carrying the client's close code. -/
def handleClientWsClose (w : World) (s : SessionState) (streamId code : Nat)
    (_reason : String) : SessionState × List Effect :=
  let s1 := { s with clientWsStreams := mdelete s.clientWsStreams streamId }
  if s1.cliOpen w then
    let frame := encodeWebSocketFrame w.nowMs s1.connectionId streamId
      s1.globalMsgSeq .close [] none (some code)
    ({ s1 with globalMsgSeq := s1.globalMsgSeq + 1 }, [.sendCli frame])
  else (s1, [])

/-- The JS runtime firing a timer: only armed timers run; the callback is
the closure installed at stream creation (Document.tsx `proxyHttpRequest`'s
request-timeout callback or `handleClientWebSocket`'s upgrade-timeout
callback). -/
def timerFire (w : World) (s : SessionState) (token : Nat) :
    SessionState × List Effect :=
  match s.armedTimers.find? (fun t => t.token == token) with
  | none => (s, [])
  | some tr =>
    let s0 := { s with armedTimers := disarm s.armedTimers token }
    match tr.kind with
    | .httpTimeout =>
        match mget s0.pendingHttpStreams tr.streamId with
        | some st =>
            let s1 := { s0 with
              pendingHttpStreams := mdelete s0.pendingHttpStreams tr.streamId }
            if s1.cliOpen w then
              ({ s1 with globalMsgSeq := s1.globalMsgSeq + 1 },
               [.writerAbort st.token "Request timeout",
                .sendCli (encodeHttpRequestAbort w.nowMs s1.connectionId
                  tr.streamId s1.globalMsgSeq .timeout "Request timeout"),
                .rejectResponse token "Request timeout"])
            else
              (s1, [.writerAbort st.token "Request timeout",
                    .rejectResponse token "Request timeout"])
        | none => (s0, [.rejectResponse token "Request timeout"])
    | .wsUpgradeTimeout serverSock =>
        match mget s0.pendingHttpStreams tr.streamId with
        | some _ =>
            ({ s0 with
                pendingHttpStreams := mdelete s0.pendingHttpStreams tr.streamId },
             if w.isOpen serverSock then
               [.closeSocket serverSock 1011 "WebSocket upgrade timeout"]
             else [])
        | none => (s0, [])

/-- Hibernation attachment stored with each accepted socket. -/
inductive Attachment
  | cli (tunnelPublicId tunnelUrl : String)
  | clientWs (tunnelPublicId : String) (streamId : Nat)
deriving DecidableEq, Repr

/-- Document.tsx constructor + `restoreFromHibernation`: a fresh instance
(class-field initial values) folds the host's surviving sockets back in.
`tokenSupply` merely carries the ghost fresh-name counter across the
restart. -/
def restoreFromHibernation (w : World) (survivors : List (Nat × Attachment))
    (tokenSupply : Nat) : SessionState :=
  let init : SessionState :=
    { cliSocket := none, connectionId := 0, tunnelPublicId := none
      tunnelUrl := none, pendingHttpStreams := [], clientWsStreams := []
      nextStreamId := 1, globalMsgSeq := 0, armedTimers := []
      nextToken := tokenSupply }
  survivors.foldl
    (fun acc kv =>
      match kv.2 with
      | .cli tid turl =>
          { acc with
            cliSocket := some kv.1, tunnelPublicId := some tid,
            tunnelUrl := some turl, connectionId := w.nowMs }
      | .clientWs _ sid =>
          { acc with
            clientWsStreams := mset acc.clientWsStreams sid
              { streamId := sid, socketId := kv.1, msgSeq := 0 },
            nextStreamId :=
              if sid ≥ acc.nextStreamId then sid + 1 else acc.nextStreamId })
    init

/-- Everything that can happen to a live session instance. -/
inductive Event
  | fetchCliConnect (tunnelPublicId tunnelUrl : Option String) (newSocket : Nat)
  | fetchHttp (req : HttpRequestIn)
  | fetchClientWs (req : HttpRequestIn) (serverSocket : Nat)
  | cliMessage (message : CliMessage)
  | clientWsMessage (streamId : Nat) (message : ClientMessage)
  | cliSocketClosed (code : Nat) (reason : String)
  | clientWsSocketClosed (streamId code : Nat) (reason : String)
  | timer (token : Nat)
  | bodyRead (streamId : Nat) (item : Option Bytes)
  | bodyReadError (streamId : Nat) (message : String)
deriving DecidableEq, Repr

/-- Dispatch one event, mirroring `fetch`, `webSocketMessage`,
`webSocketClose` and the timer callbacks. -/
def step (w : World) (s : SessionState) : Event → SessionState × List Effect
  | .fetchCliConnect tid turl sock =>
      let r := handleCliConnect w s tid turl sock
      (r.1, r.2.1)
  | .fetchHttp req =>
      let r := proxyHttpRequest w s req
      (r.1, r.2.1)
  | .fetchClientWs req sock =>
      let r := handleClientWebSocket w s req sock
      (r.1, r.2.1)
  | .cliMessage m => handleCliMessage w s m
  | .clientWsMessage sid m => handleClientWsMessage w s sid m
  | .cliSocketClosed code reason => handleCliDisconnect w s code reason
  | .clientWsSocketClosed sid code reason => handleClientWsClose w s sid code reason
  | .timer token => timerFire w s token
  | .bodyRead sid item => streamRequestBodyStep w s sid item
  | .bodyReadError sid m => streamRequestBodyError w s sid m

/-- Run a sequence of events (each with the world at its moment),
accumulating effects. -/
def run (s : SessionState) : List (World × Event) → SessionState × List Effect
  | [] => (s, [])
  | (w, e) :: rest =>
      let r1 := step w s e
      let r2 := run r1.1 rest
      (r2.1, r1.2 ++ r2.2)

/-! ### Shared fixtures for concrete instances -/

/-- A world whose clock reads 1000 and where every socket is open. -/
def wAll : World := { nowMs := 1000, isOpen := fun _ => true }

/-- A pending HTTP stream awaiting its response (no upgrade). -/
def samplePending : PendingHttpStream :=
  { streamId := 1, token := 0, responseStarted := false, responseStatus := none
    responseHeaders := none, msgSeq := 0, reqBodySeq := 0
    pendingWsUpgrade := none }

/-- A session with an open CLI socket (id 7) and one pending HTTP stream. -/
def sOnePending : SessionState :=
  { cliSocket := some 7, connectionId := 1000, tunnelPublicId := some "t"
    tunnelUrl := some "https://t.example"
    pendingHttpStreams := [(1, samplePending)], clientWsStreams := []
    nextStreamId := 2, globalMsgSeq := 2
    armedTimers := [{ token := 0, streamId := 1, kind := .httpTimeout }]
    nextToken := 1 }

/-- A wire frame the decoder rejects: an HTTP `requestTrailers` variant hits
the decoding switch's default branch. -/
def malformedFrame : Envelope :=
  { timestampMs := 0, connectionId := 0, streamId := 0, msgSeq := 0
    body := .http (.requestTrailers { timestampMs := 0, headers := [] }) }

/-! ### C1 — malformed CLI frames -/

/-- C1 counterexample: delivering a CLI frame that fails to decode to a
session with an open agent socket and one in-flight stream leaves the state
(agent socket, streams) completely unchanged and emits only an error log —
the agent socket is not closed with 1002 and no stream is failed with
"protocol error". -/
theorem c1_counterexample :
    decodeEnvelope malformedFrame = .error "Unknown HTTP message type" ∧
    handleCliMessage wAll sOnePending (.binary malformedFrame) =
      (sOnePending,
       [.logError "Failed to decode message from CLI: Unknown HTTP message type"]) ∧
    sOnePending.pendingHttpStreams ≠ [] ∧
    sOnePending.cliSocket = some 7 := by
  refine ⟨rfl, ?_, by decide, rfl⟩
  rfl

/-- C1 (amended): a binary CLI frame that fails to decode is logged and
dropped: `handleCliMessage` leaves the session state unchanged and its only
effect is the error log — the agent socket is not closed and no stream is
failed. -/
theorem c1_malformed_frame_logged (w : World) (s : SessionState)
    (wire : Envelope) (e : String) (h : decodeEnvelope wire = .error e) :
    handleCliMessage w s (.binary wire) =
      (s, [.logError ("Failed to decode message from CLI: " ++ e)]) := by
  simp [handleCliMessage, h]

/-- C1 witness: the amended theorem at the concrete malformed frame. -/
theorem c1_witness :
    handleCliMessage wAll sOnePending (.binary malformedFrame) =
      (sOnePending,
       [.logError ("Failed to decode message from CLI: " ++
          "Unknown HTTP message type")]) :=
  c1_malformed_frame_logged wAll sOnePending malformedFrame
    "Unknown HTTP message type" rfl

/-! ### C8 — response body chunk sequence numbers -/

/-- A pending HTTP stream whose response has started streaming. -/
def startedPending : PendingHttpStream :=
  { streamId := 1, token := 0, responseStarted := true
    responseStatus := some 200, responseHeaders := some []
    msgSeq := 0, reqBodySeq := 0, pendingWsUpgrade := none }

/-- A session with an open CLI socket and one started response stream. -/
def sStarted : SessionState :=
  { cliSocket := some 7, connectionId := 1000, tunnelPublicId := some "t"
    tunnelUrl := some "https://t.example"
    pendingHttpStreams := [(1, startedPending)], clientWsStreams := []
    nextStreamId := 2, globalMsgSeq := 3
    armedTimers := [{ token := 0, streamId := 1, kind := .httpTimeout }]
    nextToken := 1 }

/-- C8 counterexample: after a chunk with `seq = 5`, a chunk with the
regressed `seq = 3` for the same stream is enqueued into the writer exactly
like any other chunk (the state is unchanged both times, so the second call
is from the state that already accepted `seq = 5`); no protocol error is
raised and the stream survives. -/
theorem c8_counterexample :
    handleHttpMessage wAll sStarted 1 (.responseBodyChunk
        { timestampMs := 0, data := [104, 105], seq := 5, isLast := false }) =
      (sStarted, [.writerWrite 0 [104, 105]]) ∧
    handleHttpMessage wAll sStarted 1 (.responseBodyChunk
        { timestampMs := 0, data := [33], seq := 3, isLast := false }) =
      (sStarted, [.writerWrite 0 [33]]) := by
  exact ⟨rfl, rfl⟩

/-- C8 (amended): the session never inspects a response chunk's `seq`: any
`responseBodyChunk` for a live stream whose response has started is enqueued
into the writer as-is, and one for an unstarted response is ignored; in both
cases the state is unchanged and duplicates or regressions raise no
protocol error. -/
theorem c8_chunk_seq_ignored (w : World) (s : SessionState) (sid : Nat)
    (st : PendingHttpStream) (d : DecodedHttpBodyChunk)
    (h : mget s.pendingHttpStreams sid = some st) :
    handleHttpMessage w s sid (.responseBodyChunk d) =
      (s, if st.responseStarted then [.writerWrite st.token d.data] else []) := by
  simp [handleHttpMessage, h]
  split <;> simp_all

/-- C8 witness: the amended theorem at a concrete regressed chunk. -/
theorem c8_witness :
    handleHttpMessage wAll sStarted 1 (.responseBodyChunk
        { timestampMs := 0, data := [33], seq := 3, isLast := false }) =
      (sStarted, if startedPending.responseStarted then
        [.writerWrite startedPending.token [33]] else []) :=
  c8_chunk_seq_ignored wAll sStarted 1 startedPending
    { timestampMs := 0, data := [33], seq := 3, isLast := false } rfl

/-! ### C5 — request deadline and late response frames -/

/-- C5: when an HTTP stream's armed deadline fires while the stream is still
pending and the CLI socket is open, the stream is removed, the public-side
response is aborted (writer aborted, promise rejected with
"Request timeout") and `requestAbort(timeout, "Request timeout")` goes to
the agent; and any response frame for a streamId absent from the table is
dropped with no state change and no effect. -/
theorem c5_deadline_timeout_and_late_drop (w : World) (s : SessionState)
    (token sid : Nat) (st : PendingHttpStream)
    (hfind : s.armedTimers.find? (fun t => t.token == token) =
      some { token := token, streamId := sid, kind := .httpTimeout })
    (hstream : mget s.pendingHttpStreams sid = some st)
    (hopen : s.cliOpen w = true) :
    timerFire w s token =
      ({ s with
          armedTimers := disarm s.armedTimers token
          pendingHttpStreams := mdelete s.pendingHttpStreams sid
          globalMsgSeq := s.globalMsgSeq + 1 },
       [.writerAbort st.token "Request timeout",
        .sendCli (encodeHttpRequestAbort w.nowMs s.connectionId sid
          s.globalMsgSeq .timeout "Request timeout"),
        .rejectResponse token "Request timeout"]) ∧
    (∀ (s2 : SessionState) (sid2 : Nat) (http : DecodedHttpMessage),
      mget s2.pendingHttpStreams sid2 = none →
      handleHttpMessage w s2 sid2 http = (s2, [])) := by
  constructor
  · have hopen2 : SessionState.cliOpen
        { s with
          armedTimers := disarm s.armedTimers token
          pendingHttpStreams := mdelete s.pendingHttpStreams sid } w = true := by
      simpa [SessionState.cliOpen] using hopen
    simp [timerFire, hfind, hstream, hopen2]
  · intro s2 sid2 http h
    simp [handleHttpMessage, h]

/-- C5 witness: the deadline theorem at the concrete one-stream session. -/
theorem c5_witness :
    timerFire wAll sOnePending 0 =
      ({ sOnePending with
          armedTimers := disarm sOnePending.armedTimers 0
          pendingHttpStreams := mdelete sOnePending.pendingHttpStreams 1
          globalMsgSeq := sOnePending.globalMsgSeq + 1 },
       [.writerAbort samplePending.token "Request timeout",
        .sendCli (encodeHttpRequestAbort wAll.nowMs sOnePending.connectionId 1
          sOnePending.globalMsgSeq .timeout "Request timeout"),
        .rejectResponse 0 "Request timeout"]) :=
  (c5_deadline_timeout_and_late_drop wAll sOnePending 0 1 samplePending
    rfl rfl rfl).1

/-! ### C6 — WebSocket upgrade transitions -/

/-- A pending HTTP stream awaiting WebSocket upgrade on public socket 9. -/
def upgradePending : PendingHttpStream :=
  { streamId := 1, token := 0, responseStarted := false, responseStatus := none
    responseHeaders := none, msgSeq := 0, reqBodySeq := 0
    pendingWsUpgrade := some 9 }

/-- A session with an open CLI socket and one pending upgrade stream. -/
def sUpgrade : SessionState :=
  { cliSocket := some 7, connectionId := 1000, tunnelPublicId := some "t"
    tunnelUrl := some "https://t.example"
    pendingHttpStreams := [(1, upgradePending)], clientWsStreams := []
    nextStreamId := 2, globalMsgSeq := 1
    armedTimers := [{ token := 0, streamId := 1, kind := .wsUpgradeTimeout 9 }]
    nextToken := 1 }

/-- C6: for a stream with a pending WebSocket upgrade (public socket open):
`responseInit{101}` moves it from the HTTP map to the WebSocket map and
cancels the deadline; `responseInit{status ≠ 101}` closes the public socket
with 1002 carrying the upstream status; `responseAbort` closes it with 1011
carrying the detail; upgrade-deadline expiry closes it with 1011
"WebSocket upgrade timeout"; in every case the stream leaves the HTTP map. -/
theorem c6_ws_upgrade_transitions (w : World) (s : SessionState) (sid : Nat)
    (st : PendingHttpStream) (sock : Nat)
    (hstream : mget s.pendingHttpStreams sid = some st)
    (hupg : st.pendingWsUpgrade = some sock)
    (hsockOpen : w.isOpen sock = true) :
    (∀ d : DecodedHttpResponseInit, d.status = 101 →
      handleHttpMessage w s sid (.responseInit d) =
        ({ s with
            armedTimers := disarm s.armedTimers st.token
            clientWsStreams := mset s.clientWsStreams sid
              { streamId := sid, socketId := sock, msgSeq := 0 }
            pendingHttpStreams := mdelete s.pendingHttpStreams sid },
         [.clearTimer st.token])) ∧
    (∀ d : DecodedHttpResponseInit, d.status ≠ 101 →
      handleHttpMessage w s sid (.responseInit d) =
        ({ s with
            armedTimers := disarm s.armedTimers st.token
            pendingHttpStreams := mdelete s.pendingHttpStreams sid },
         [.clearTimer st.token,
          .closeSocket sock 1002 ("Upstream rejected: " ++ toString d.status)])) ∧
    (∀ (reason : AbortReason) (detail : String),
      handleHttpMessage w s sid (.responseAbort reason detail) =
        ({ s with
            armedTimers := disarm s.armedTimers st.token
            pendingHttpStreams := mdelete s.pendingHttpStreams sid },
         [.clearTimer st.token,
          .closeSocket sock 1011
            (if detail.isEmpty then "WebSocket upgrade failed" else detail)])) ∧
    (∀ token : Nat,
      s.armedTimers.find? (fun t => t.token == token) =
        some { token := token, streamId := sid, kind := .wsUpgradeTimeout sock } →
      timerFire w s token =
        ({ s with
            armedTimers := disarm s.armedTimers token
            pendingHttpStreams := mdelete s.pendingHttpStreams sid },
         [.closeSocket sock 1011 "WebSocket upgrade timeout"])) := by
  refine ⟨?_, ?_, ?_, ?_⟩
  · intro d h101
    simp [handleHttpMessage, hstream, hupg, h101]
  · intro d hne
    simp [handleHttpMessage, hstream, hupg, hne, hsockOpen]
  · intro reason detail
    simp [handleHttpMessage, hstream, hupg, hsockOpen]
  · intro token hfind
    simp [timerFire, hfind, hstream, hsockOpen]

/-- C6 witness: the four transitions at the concrete upgrade session. -/
theorem c6_witness :
    (handleHttpMessage wAll sUpgrade 1 (.responseInit
        { timestampMs := 0, status := 101, headers := [], hasBody := false
          contentLength := 0 }) =
      ({ sUpgrade with
          armedTimers := disarm sUpgrade.armedTimers 0
          clientWsStreams := mset sUpgrade.clientWsStreams 1
            { streamId := 1, socketId := 9, msgSeq := 0 }
          pendingHttpStreams := mdelete sUpgrade.pendingHttpStreams 1 },
       [.clearTimer 0])) ∧
    (handleHttpMessage wAll sUpgrade 1 (.responseInit
        { timestampMs := 0, status := 403, headers := [], hasBody := false
          contentLength := 0 }) =
      ({ sUpgrade with
          armedTimers := disarm sUpgrade.armedTimers 0
          pendingHttpStreams := mdelete sUpgrade.pendingHttpStreams 1 },
       [.clearTimer 0,
        .closeSocket 9 1002 ("Upstream rejected: " ++ toString (403 : Nat))])) ∧
    (handleHttpMessage wAll sUpgrade 1 (.responseAbort .peerClosed "denied") =
      ({ sUpgrade with
          armedTimers := disarm sUpgrade.armedTimers 0
          pendingHttpStreams := mdelete sUpgrade.pendingHttpStreams 1 },
       [.clearTimer 0,
        .closeSocket 9 1011
          (if ("denied" : String).isEmpty then "WebSocket upgrade failed"
           else "denied")])) ∧
    (timerFire wAll sUpgrade 0 =
      ({ sUpgrade with
          armedTimers := disarm sUpgrade.armedTimers 0
          pendingHttpStreams := mdelete sUpgrade.pendingHttpStreams 1 },
       [.closeSocket 9 1011 "WebSocket upgrade timeout"])) := by
  have h := c6_ws_upgrade_transitions wAll sUpgrade 1 upgradePending 9 rfl rfl rfl
  exact ⟨h.1 _ rfl, h.2.1 _ (by decide), h.2.2.1 .peerClosed "denied",
    h.2.2.2 0 rfl⟩

/-! ### C7 — codec round trip -/

/-- `u16` is the identity on in-range values. -/
theorem u16_small {n : Nat} (h : n < 65536) : u16 n = n := Nat.mod_eq_of_lt h

/-- `u32` is the identity on in-range values. -/
theorem u32_small {n : Nat} (h : n < 4294967296) : u32 n = n :=
  Nat.mod_eq_of_lt h

/-- `u64` is the identity on in-range values. -/
theorem u64_small {n : Nat} (h : n < 18446744073709551616) : u64 n = n :=
  Nat.mod_eq_of_lt h

/-- C7: encoding any envelope the codec can emit (fields within their schema
widths, a close code present exactly on close frames) and decoding the
result yields the structurally equal decoded value: header names and byte
values, payload bytes, enum tags, sequence numbers and timestamps are all
preserved, for every HTTP, WebSocket and control variant. -/
theorem c7_encode_decode_roundtrip
    (now cid sid seq : Nat)
    (hnow : now < 18446744073709551616) (hcid : cid < 18446744073709551616)
    (hsid : sid < 4294967296) (hseq : seq < 4294967296) :
    (∀ (method uri : String) (hdrs : List (String × Bytes)) (hasBody : Bool),
      decodeEnvelope
          (encodeHttpRequestInit now cid sid seq method uri hdrs hasBody) =
        .ok (.http sid cid seq (.requestInit
          { timestampMs := now, method := method, uri := uri, version := .h1
            headers := hdrs.map fun h => { name := h.1, value := h.2 }
            hasBody := hasBody }))) ∧
    (∀ (data : Bytes) (cseq : Nat) (isLast isRequest : Bool),
      cseq < 4294967296 →
      decodeEnvelope
          (encodeHttpBodyChunk now cid sid seq data cseq isLast isRequest) =
        .ok (.http sid cid seq
          (if isRequest then
            .requestBodyChunk
              { timestampMs := now, data := data, seq := cseq, isLast := isLast }
           else
            .responseBodyChunk
              { timestampMs := now, data := data, seq := cseq
                isLast := isLast }))) ∧
    (decodeEnvelope (encodeHttpRequestEnd now cid sid seq) =
      .ok (.http sid cid seq (.requestEnd now))) ∧
    (∀ (reason : AbortReason) (detail : String),
      decodeEnvelope (encodeHttpRequestAbort now cid sid seq reason detail) =
        .ok (.http sid cid seq (.requestAbort reason detail))) ∧
    (∀ (status : Nat) (hdrs : List (String × Bytes)) (hasBody : Bool)
        (cl : Option Nat),
      status < 65536 → cl.getD 0 < 18446744073709551616 →
      decodeEnvelope
          (encodeHttpResponseInit now cid sid seq status hdrs hasBody cl) =
        .ok (.http sid cid seq (.responseInit
          { timestampMs := now, status := status
            headers := hdrs.map fun h => { name := h.1, value := h.2 }
            hasBody := hasBody, contentLength := cl.getD 0 }))) ∧
    (decodeEnvelope (encodeHttpResponseEnd now cid sid seq) =
      .ok (.http sid cid seq (.responseEnd now))) ∧
    (∀ (reason : AbortReason) (detail : String),
      decodeEnvelope (encodeHttpResponseAbort now cid sid seq reason detail) =
        .ok (.http sid cid seq (.responseAbort reason detail))) ∧
    (∀ (payload : Bytes) (fin : Bool) (c : Nat), c < 65536 →
      decodeEnvelope
          (encodeWebSocketFrame now cid sid seq .close payload (some fin)
            (some c)) =
        .ok (.ws sid cid seq
          { timestampMs := now, opcode := .close, fin := fin
            payload := payload, closeCode := some c })) ∧
    (∀ (opcode : WebSocketOpcode) (payload : Bytes) (fin : Bool),
      opcode ≠ .close →
      decodeEnvelope
          (encodeWebSocketFrame now cid sid seq opcode payload (some fin)
            none) =
        .ok (.ws sid cid seq
          { timestampMs := now, opcode := opcode, fin := fin
            payload := payload, closeCode := none })) ∧
    (∀ data : Bytes,
      decodeEnvelope (encodeControlPing now cid (some data)) =
        .ok (.control 0 cid 0 (.ping now data))) ∧
    (∀ data : Bytes,
      decodeEnvelope (encodeControlPong now cid (some data)) =
        .ok (.control 0 cid 0 (.pong now data))) ∧
    (∀ (code : Nat) (msg : String), code < 4294967296 →
      decodeEnvelope (encodeControlError now cid code msg) =
        .ok (.control 0 cid 0 (.error now code msg))) ∧
    (∀ (lms : Nat) (reason : String), lms < 4294967296 →
      decodeEnvelope (encodeControlGoAway now cid lms reason) =
        .ok (.control 0 cid 0 (.goAway now lms reason))) := by
  refine ⟨?_, ?_, ?_, ?_, ?_, ?_, ?_, ?_, ?_, ?_, ?_, ?_, ?_⟩
  · intro method uri hdrs hasBody
    simp [encodeHttpRequestInit, decodeEnvelope, decodeHttpMessage, Except.map,
      u64_small hnow, u64_small hcid, u32_small hsid, u32_small hseq]
  · intro data cseq isLast isRequest hcseq
    cases isRequest <;>
      simp [encodeHttpBodyChunk, decodeEnvelope, decodeHttpMessage, Except.map,
        u64_small hnow, u64_small hcid, u32_small hsid, u32_small hseq,
        u32_small hcseq]
  · simp [encodeHttpRequestEnd, decodeEnvelope, decodeHttpMessage, Except.map,
      u64_small hnow, u64_small hcid, u32_small hsid, u32_small hseq]
  · intro reason detail
    simp [encodeHttpRequestAbort, decodeEnvelope, decodeHttpMessage, Except.map,
      u64_small hnow, u64_small hcid, u32_small hsid, u32_small hseq]
  · intro status hdrs hasBody cl hstatus hcl
    simp [encodeHttpResponseInit, decodeEnvelope, decodeHttpMessage, Except.map,
      u64_small hnow, u64_small hcid, u32_small hsid, u32_small hseq,
      u16_small hstatus, u64_small hcl]
  · simp [encodeHttpResponseEnd, decodeEnvelope, decodeHttpMessage, Except.map,
      u64_small hnow, u64_small hcid, u32_small hsid, u32_small hseq]
  · intro reason detail
    simp [encodeHttpResponseAbort, decodeEnvelope, decodeHttpMessage, Except.map,
      u64_small hnow, u64_small hcid, u32_small hsid, u32_small hseq]
  · intro payload fin c hc
    simp [encodeWebSocketFrame, decodeEnvelope, decodeWebSocketFrame,
      u64_small hnow, u64_small hcid, u32_small hsid, u32_small hseq,
      u16_small hc]
  · intro opcode payload fin hne
    simp [encodeWebSocketFrame, decodeEnvelope, decodeWebSocketFrame,
      u64_small hnow, u64_small hcid, u32_small hsid, u32_small hseq, hne]
  · intro data
    simp [encodeControlPing, decodeEnvelope, decodeControl, Except.map,
      u64_small hnow, u64_small hcid]
  · intro data
    simp [encodeControlPong, decodeEnvelope, decodeControl, Except.map,
      u64_small hnow, u64_small hcid]
  · intro code msg hcode
    simp [encodeControlError, decodeEnvelope, decodeControl, Except.map,
      u64_small hnow, u64_small hcid, u32_small hcode]
  · intro lms reason hlms
    simp [encodeControlGoAway, decodeEnvelope, decodeControl, Except.map,
      u64_small hnow, u64_small hcid, u32_small hlms]

/-- C7 witness: the round trip at concrete envelopes of several variants. -/
theorem c7_witness :
    (decodeEnvelope
        (encodeHttpRequestInit 1000 5 1 0 "GET" "/a?b=1" [("host", [104])]
          true) =
      .ok (.http 1 5 0 (.requestInit
        { timestampMs := 1000, method := "GET", uri := "/a?b=1", version := .h1
          headers := [("host", ([104] : Bytes))].map fun h =>
            { name := h.1, value := h.2 }
          hasBody := true }))) ∧
    (decodeEnvelope (encodeWebSocketFrame 1000 5 1 2 .close [] (some true)
        (some 1005)) =
      .ok (.ws 1 5 2
        { timestampMs := 1000, opcode := .close, fin := true, payload := []
          closeCode := some 1005 })) ∧
    (decodeEnvelope (encodeControlGoAway 1000 5 42 "bye") =
      .ok (.control 0 5 0 (.goAway 1000 42 "bye"))) := by
  have h := c7_encode_decode_roundtrip 1000 5 1 0 (by decide) (by decide)
    (by decide) (by decide)
  have h2 := c7_encode_decode_roundtrip 1000 5 1 2 (by decide) (by decide)
    (by decide) (by decide)
  exact ⟨h.1 "GET" "/a?b=1" [("host", [104])] true,
    h2.2.2.2.2.2.2.2.1 [] true 1005 (by decide),
    (h.2.2.2.2.2.2.2.2.2.2.2.2) 42 "bye" (by decide)⟩

/-! ### Frame bookkeeping (for the msgSeq and connectionId claims) -/

/-- The binary envelopes sent to the CLI socket, in order. -/
def sentFrames (effs : List Effect) : List Envelope :=
  effs.filterMap fun e => match e with
    | .sendCli f => some f
    | _ => none

/-- Whether an envelope body is a control frame. -/
def isControl : EnvelopeBody → Bool
  | .control _ => true
  | _ => false

/-- `msgSeq` values of the sent HTTP and WebSocket frames, control frames
excluded. -/
def hwsSeqs (effs : List Effect) : List Nat :=
  (sentFrames effs).filterMap fun f =>
    if isControl f.body then none else some f.msgSeq

/-- Frame bookkeeping across one step from state `s`: the counter advances
by the number of HTTP/WS frames sent, whose `msgSeq`s are the 32-bit images
of the consecutive counter values starting at the pre-state counter;
`connectionId` is unchanged and stamped (64-bit image) on every sent frame;
control frames always carry `msgSeq = 0`. -/
def FrameSpec (s : SessionState) (r : SessionState × List Effect) : Prop :=
  ∃ k, r.1.globalMsgSeq = s.globalMsgSeq + k ∧
    r.1.connectionId = s.connectionId ∧
    hwsSeqs r.2 = (List.range' s.globalMsgSeq k).map u32 ∧
    ∀ f ∈ sentFrames r.2, f.connectionId = u64 s.connectionId ∧
      (isControl f.body = true → f.msgSeq = 0)

/-- `failEffects` contains no CLI sends. -/
theorem sentFrames_failEffects (l : List (Nat × PendingHttpStream))
    (r : String) : sentFrames (failEffects l r) = [] := by
  induction l with
  | nil => rfl
  | cons kv rest ih =>
      by_cases h : kv.2.responseStarted <;>
        simpa [failEffects, sentFrames, List.filterMap_cons, h] using ih

/-- `closeClientEffects` contains no CLI sends. -/
theorem sentFrames_closeClientEffects (w : World)
    (l : List (Nat × ClientWsStream)) :
    sentFrames (closeClientEffects w l) = [] := by
  induction l with
  | nil => rfl
  | cons kv rest ih =>
      by_cases h : w.isOpen kv.2.socketId <;>
        simpa [closeClientEffects, sentFrames, List.filterMap_cons, h] using ih

/-- `handleHttpMessage` never sends a frame and never touches the counters. -/
theorem handleHttpMessage_sends_nothing (w : World) (s : SessionState)
    (sid : Nat) (m : DecodedHttpMessage) :
    (handleHttpMessage w s sid m).1.globalMsgSeq = s.globalMsgSeq ∧
    (handleHttpMessage w s sid m).1.connectionId = s.connectionId ∧
    sentFrames (handleHttpMessage w s sid m).2 = [] := by
  unfold handleHttpMessage
  split
  · simp [sentFrames]
  · split <;> (repeat' split) <;> simp [sentFrames, List.filterMap_cons]

/-- `handleWebSocketFrame` never sends a CLI frame and never touches the
counters. -/
theorem handleWebSocketFrame_sends_nothing (w : World) (s : SessionState)
    (sid : Nat) (fr : DecodedWebSocketFrame) :
    (handleWebSocketFrame w s sid fr).1.globalMsgSeq = s.globalMsgSeq ∧
    (handleWebSocketFrame w s sid fr).1.connectionId = s.connectionId ∧
    sentFrames (handleWebSocketFrame w s sid fr).2 = [] := by
  unfold handleWebSocketFrame
  split
  · simp [sentFrames]
  · split
    · simp [sentFrames]
    · split <;> simp [sentFrames, List.filterMap_cons]

/-- `FrameSpec` holds for control-message handling: a pong reply is a
control frame with `msgSeq = 0` and the counters are untouched. -/
theorem frameSpec_handleControlMessage (w : World) (s : SessionState)
    (c : DecodedControl) : FrameSpec s (handleControlMessage w s c) := by
  cases c with
  | ping t data =>
      by_cases h : s.cliOpen w = true
      · exact ⟨0, by simp [handleControlMessage, h],
          by simp [handleControlMessage, h],
          by simp [handleControlMessage, h, hwsSeqs, sentFrames,
            List.filterMap_cons, encodeControlPong, isControl],
          by simp [handleControlMessage, h, sentFrames, List.filterMap_cons,
            encodeControlPong, isControl]⟩
      · exact ⟨0, by simp [handleControlMessage, h],
          by simp [handleControlMessage, h],
          by simp [handleControlMessage, h, hwsSeqs, sentFrames],
          by simp [handleControlMessage, h, sentFrames]⟩
  | pong t data =>
      exact ⟨0, by simp [handleControlMessage],
        by simp [handleControlMessage],
        by simp [handleControlMessage, hwsSeqs, sentFrames],
        by simp [handleControlMessage, sentFrames]⟩
  | error t code msg =>
      exact ⟨0, by simp [handleControlMessage],
        by simp [handleControlMessage],
        by simp [handleControlMessage, hwsSeqs, sentFrames,
          List.filterMap_cons],
        by simp [handleControlMessage, sentFrames, List.filterMap_cons]⟩
  | goAway t l r =>
      exact ⟨0, by simp [handleControlMessage],
        by simp [handleControlMessage],
        by simp [handleControlMessage, hwsSeqs, sentFrames],
        by simp [handleControlMessage, sentFrames]⟩

/-- `sentFrames` distributes over append. -/
theorem sentFrames_append (a b : List Effect) :
    sentFrames (a ++ b) = sentFrames a ++ sentFrames b := by
  simp [sentFrames, List.filterMap_append]

/-- No sent frames means no HTTP/WS sequence values. -/
theorem hwsSeqs_of_sentFrames_nil {effs : List Effect}
    (h : sentFrames effs = []) : hwsSeqs effs = [] := by
  simp [hwsSeqs, h]

/-- The empty effect list sends nothing. -/
theorem sentFrames_nil : sentFrames [] = [] := rfl

/-- A leading database-status effect sends nothing. -/
theorem sentFrames_db (tid status : String) (rest : List Effect) :
    sentFrames (Effect.dbUpdateStatus tid status :: rest) = sentFrames rest := by
  simp [sentFrames, List.filterMap_cons]

/-- `handleCliDisconnect` sends no frame to the CLI. -/
theorem sentFrames_handleCliDisconnect (w : World) (s : SessionState)
    (code : Nat) (reason : String) :
    sentFrames (handleCliDisconnect w s code reason).2 = [] := by
  unfold handleCliDisconnect failAllPendingStreams
  cases htid : s.tunnelPublicId <;>
    simp [htid, sentFrames_append, sentFrames_failEffects,
      sentFrames_closeClientEffects, sentFrames_nil, sentFrames_db]

/-- `List.range'` at explicit small lengths. -/
theorem range'_one_eq (g : Nat) : List.range' g 1 = [g] := rfl

/-- `List.range'` at length two. -/
theorem range'_two_eq (g : Nat) : List.range' g 2 = [g, g + 1] := rfl

/-- Every non-attach event satisfies the frame bookkeeping: counters only
advance with HTTP/WS sends, `connectionId` never changes, and sent frames
are stamped accordingly. -/
theorem frameSpec_step (w : World) (s : SessionState) (e : Event)
    (hna : ∀ tid turl sock, e ≠ Event.fetchCliConnect tid turl sock) :
    FrameSpec s (step w s e) := by
  cases e with
  | fetchCliConnect tid turl sock => exact absurd rfl (hna tid turl sock)
  | fetchHttp req =>
      by_cases h1 : s.cliOpen w = true
      · by_cases h2 : s.pendingHttpStreams.length ≥ MAX_CONCURRENT_STREAMS
        · exact ⟨0, by simp [step, proxyHttpRequest, h1, h2],
            by simp [step, proxyHttpRequest, h1, h2],
            by simp [step, proxyHttpRequest, h1, h2, hwsSeqs, sentFrames],
            by simp [step, proxyHttpRequest, h1, h2, sentFrames]⟩
        · by_cases h3 : req.hasBody
          · refine ⟨1, ?_, ?_, ?_, ?_⟩ <;>
              simp [step, proxyHttpRequest, h1, h2, h3, hwsSeqs, sentFrames,
                List.filterMap_cons, encodeHttpRequestInit, isControl,
                range'_one_eq]
          · refine ⟨2, ?_, ?_, ?_, ?_⟩ <;>
              simp [step, proxyHttpRequest, h1, h2, h3, hwsSeqs, sentFrames,
                List.filterMap_cons, encodeHttpRequestInit,
                encodeHttpRequestEnd, isControl, range'_two_eq]
      · exact ⟨0, by simp [step, proxyHttpRequest, h1],
          by simp [step, proxyHttpRequest, h1],
          by simp [step, proxyHttpRequest, h1, hwsSeqs, sentFrames],
          by simp [step, proxyHttpRequest, h1, sentFrames]⟩
  | fetchClientWs req sock =>
      by_cases h1 : s.cliOpen w = true
      · by_cases h2 : s.pendingHttpStreams.length + s.clientWsStreams.length ≥
            MAX_CONCURRENT_STREAMS
        · exact ⟨0, by simp [step, handleClientWebSocket, h1, h2],
            by simp [step, handleClientWebSocket, h1, h2],
            by simp [step, handleClientWebSocket, h1, h2, hwsSeqs, sentFrames],
            by simp [step, handleClientWebSocket, h1, h2, sentFrames]⟩
        · refine ⟨1, ?_, ?_, ?_, ?_⟩ <;>
            simp [step, handleClientWebSocket, h1, h2, hwsSeqs, sentFrames,
              List.filterMap_cons, encodeHttpRequestInit, isControl,
              range'_one_eq]
      · exact ⟨0, by simp [step, handleClientWebSocket, h1],
          by simp [step, handleClientWebSocket, h1],
          by simp [step, handleClientWebSocket, h1, hwsSeqs, sentFrames],
          by simp [step, handleClientWebSocket, h1, sentFrames]⟩
  | cliMessage m =>
      cases m with
      | text str =>
          exact ⟨0, by simp [step, handleCliMessage],
            by simp [step, handleCliMessage],
            by simp [step, handleCliMessage, hwsSeqs, sentFrames],
            by simp [step, handleCliMessage, sentFrames]⟩
      | binary wire =>
          rcases hd : decodeEnvelope wire with e2 | env
          · exact ⟨0, by simp [step, handleCliMessage, hd],
              by simp [step, handleCliMessage, hd],
              by simp [step, handleCliMessage, hd, hwsSeqs, sentFrames,
                List.filterMap_cons],
              by simp [step, handleCliMessage, hd, sentFrames,
                List.filterMap_cons]⟩
          · cases env with
            | http sid cid seq m2 =>
                have h := handleHttpMessage_sends_nothing w s sid m2
                exact ⟨0, by simp [step, handleCliMessage, hd,
                    handleDecodedEnvelope, h.1],
                  by simp [step, handleCliMessage, hd, handleDecodedEnvelope,
                    h.2.1],
                  by simp [step, handleCliMessage, hd, handleDecodedEnvelope,
                    hwsSeqs, h.2.2],
                  by simp [step, handleCliMessage, hd, handleDecodedEnvelope,
                    h.2.2]⟩
            | ws sid cid seq fr =>
                have h := handleWebSocketFrame_sends_nothing w s sid fr
                exact ⟨0, by simp [step, handleCliMessage, hd,
                    handleDecodedEnvelope, h.1],
                  by simp [step, handleCliMessage, hd, handleDecodedEnvelope,
                    h.2.1],
                  by simp [step, handleCliMessage, hd, handleDecodedEnvelope,
                    hwsSeqs, h.2.2],
                  by simp [step, handleCliMessage, hd, handleDecodedEnvelope,
                    h.2.2]⟩
            | control sid cid seq c =>
                have h := frameSpec_handleControlMessage w s c
                simpa [step, handleCliMessage, hd, handleDecodedEnvelope]
                  using h
  | clientWsMessage sid msg =>
      by_cases h1 : s.cliOpen w = true
      · rcases hm : mget s.clientWsStreams sid with _ | cs
        · exact ⟨0, by simp [step, handleClientWsMessage, h1, hm],
            by simp [step, handleClientWsMessage, h1, hm],
            by simp [step, handleClientWsMessage, h1, hm, hwsSeqs, sentFrames],
            by simp [step, handleClientWsMessage, h1, hm, sentFrames]⟩
        · refine ⟨1, ?_, ?_, ?_, ?_⟩ <;>
            simp [step, handleClientWsMessage, h1, hm, hwsSeqs, sentFrames,
              List.filterMap_cons, encodeWebSocketFrame, isControl,
              range'_one_eq]
      · exact ⟨0, by simp [step, handleClientWsMessage, h1],
          by simp [step, handleClientWsMessage, h1],
          by simp [step, handleClientWsMessage, h1, hwsSeqs, sentFrames],
          by simp [step, handleClientWsMessage, h1, sentFrames]⟩
  | cliSocketClosed code reason =>
      have hstep : step w s (.cliSocketClosed code reason) =
          handleCliDisconnect w s code reason := rfl
      have hsf := sentFrames_handleCliDisconnect w s code reason
      refine ⟨0, ?_, ?_, ?_, ?_⟩
      · rw [hstep]
        cases htid : s.tunnelPublicId <;>
          simp [handleCliDisconnect, failAllPendingStreams, htid]
      · rw [hstep]
        cases htid : s.tunnelPublicId <;>
          simp [handleCliDisconnect, failAllPendingStreams, htid]
      · rw [hstep, hwsSeqs_of_sentFrames_nil hsf]
        simp
      · rw [hstep, hsf]
        simp
  | clientWsSocketClosed sid code reason =>
      by_cases h1 : SessionState.cliOpen
          { s with clientWsStreams := mdelete s.clientWsStreams sid } w = true
      · refine ⟨1, ?_, ?_, ?_, ?_⟩ <;>
          simp [step, handleClientWsClose, h1, hwsSeqs, sentFrames,
            List.filterMap_cons, encodeWebSocketFrame, isControl,
            range'_one_eq]
      · exact ⟨0, by simp [step, handleClientWsClose, h1],
          by simp [step, handleClientWsClose, h1],
          by simp [step, handleClientWsClose, h1, hwsSeqs, sentFrames],
          by simp [step, handleClientWsClose, h1, sentFrames]⟩
  | timer token =>
      rcases hf : s.armedTimers.find? (fun t => t.token == token) with _ | tr
      · exact ⟨0, by simp [step, timerFire, hf],
          by simp [step, timerFire, hf],
          by simp [step, timerFire, hf, hwsSeqs, sentFrames],
          by simp [step, timerFire, hf, sentFrames]⟩
      · cases hk : tr.kind with
        | httpTimeout =>
            rcases hm : mget s.pendingHttpStreams tr.streamId with _ | st
            · exact ⟨0, by simp [step, timerFire, hf, hk, hm],
                by simp [step, timerFire, hf, hk, hm],
                by simp [step, timerFire, hf, hk, hm, hwsSeqs, sentFrames,
                  List.filterMap_cons],
                by simp [step, timerFire, hf, hk, hm, sentFrames,
                  List.filterMap_cons]⟩
            · by_cases h1 : SessionState.cliOpen
                  { s with
                    armedTimers := disarm s.armedTimers token
                    pendingHttpStreams :=
                      mdelete s.pendingHttpStreams tr.streamId } w = true
              · refine ⟨1, ?_, ?_, ?_, ?_⟩ <;>
                  simp [step, timerFire, hf, hk, hm, h1, hwsSeqs, sentFrames,
                    List.filterMap_cons, encodeHttpRequestAbort, isControl,
                    range'_one_eq]
              · exact ⟨0, by simp [step, timerFire, hf, hk, hm, h1],
                  by simp [step, timerFire, hf, hk, hm, h1],
                  by simp [step, timerFire, hf, hk, hm, h1, hwsSeqs,
                    sentFrames, List.filterMap_cons],
                  by simp [step, timerFire, hf, hk, hm, h1, sentFrames,
                    List.filterMap_cons]⟩
        | wsUpgradeTimeout sock =>
            rcases hm : mget s.pendingHttpStreams tr.streamId with _ | st
            · exact ⟨0, by simp [step, timerFire, hf, hk, hm],
                by simp [step, timerFire, hf, hk, hm],
                by simp [step, timerFire, hf, hk, hm, hwsSeqs, sentFrames],
                by simp [step, timerFire, hf, hk, hm, sentFrames]⟩
            · by_cases h1 : w.isOpen sock = true <;>
                exact ⟨0, by simp [step, timerFire, hf, hk, hm, h1],
                  by simp [step, timerFire, hf, hk, hm, h1],
                  by simp [step, timerFire, hf, hk, hm, h1, hwsSeqs,
                    sentFrames, List.filterMap_cons],
                  by simp [step, timerFire, hf, hk, hm, h1, sentFrames,
                    List.filterMap_cons]⟩
  | bodyRead sid item =>
      rcases hm : mget s.pendingHttpStreams sid with _ | st
      · exact ⟨0, by simp [step, streamRequestBodyStep, hm],
          by simp [step, streamRequestBodyStep, hm],
          by simp [step, streamRequestBodyStep, hm, hwsSeqs, sentFrames],
          by simp [step, streamRequestBodyStep, hm, sentFrames]⟩
      · by_cases h1 : s.cliOpen w = true
        · cases item with
          | none =>
              refine ⟨1, ?_, ?_, ?_, ?_⟩ <;>
                simp [step, streamRequestBodyStep, hm, h1, hwsSeqs, sentFrames,
                  List.filterMap_cons, encodeHttpRequestEnd, isControl,
                  range'_one_eq]
          | some bytes =>
              refine ⟨1, ?_, ?_, ?_, ?_⟩ <;>
                simp [step, streamRequestBodyStep, hm, h1, hwsSeqs, sentFrames,
                  List.filterMap_cons, encodeHttpBodyChunk, isControl,
                  range'_one_eq]
        · exact ⟨0, by simp [step, streamRequestBodyStep, hm, h1],
            by simp [step, streamRequestBodyStep, hm, h1],
            by simp [step, streamRequestBodyStep, hm, h1, hwsSeqs, sentFrames],
            by simp [step, streamRequestBodyStep, hm, h1, sentFrames]⟩
  | bodyReadError sid msg =>
      by_cases h1 : (s.cliOpen w &&
          (mget s.pendingHttpStreams sid).isSome) = true
      · refine ⟨1, ?_, ?_, ?_, ?_⟩ <;>
          simp [step, streamRequestBodyError, h1, hwsSeqs, sentFrames,
            List.filterMap_cons, encodeHttpRequestAbort, isControl,
            range'_one_eq]
      · exact ⟨0, by simp [step, streamRequestBodyError, h1],
          by simp [step, streamRequestBodyError, h1],
          by simp [step, streamRequestBodyError, h1, hwsSeqs, sentFrames],
          by simp [step, streamRequestBodyError, h1, sentFrames]⟩

/-- `hwsSeqs` distributes over append. -/
theorem hwsSeqs_append (a b : List Effect) :
    hwsSeqs (a ++ b) = hwsSeqs a ++ hwsSeqs b := by
  simp [hwsSeqs, sentFrames_append, List.filterMap_append]

/-- Frame bookkeeping composes over a whole trace of non-attach events. -/
theorem frameSpec_run (tr : List (World × Event)) (s : SessionState)
    (hna : ∀ we ∈ tr, ∀ tid turl sock,
      we.2 ≠ Event.fetchCliConnect tid turl sock) :
    FrameSpec s (run s tr) := by
  induction tr generalizing s with
  | nil =>
      exact ⟨0, by simp [run], by simp [run],
        by simp [run, hwsSeqs, sentFrames], by simp [run, sentFrames]⟩
  | cons we rest ih =>
      obtain ⟨k1, hg1, hc1, hs1, hf1⟩ :=
        frameSpec_step we.1 s we.2 (hna we (by simp))
      obtain ⟨k2, hg2, hc2, hs2, hf2⟩ :=
        ih (step we.1 s we.2).1 (fun x hx => hna x (by simp [hx]))
      refine ⟨k1 + k2, ?_, ?_, ?_, ?_⟩
      · simp only [run]
        omega
      · simp only [run]
        rw [hc2, hc1]
      · simp only [run]
        rw [hwsSeqs_append, hs1, hs2, hg1, ← List.map_append,
          List.range'_append_1]
        have : k2 + k1 = k1 + k2 := Nat.add_comm k2 k1
        rw [this]
      · simp only [run]
        intro f hf3
        rw [sentFrames_append, List.mem_append] at hf3
        rcases hf3 with h | h
        · exact hf1 f h
        · have := hf2 f h
          rwa [hc1] at this

/-! ### C3 — msgSeq monotonicity -/

/-- A plain public GET request with no body. -/
def reqPlain : HttpRequestIn :=
  { method := "GET", pathAndQuery := "/", headers := [], hasBody := false }

/-- A wire control-ping frame from the CLI. -/
def pingWire : Envelope :=
  { timestampMs := 0, connectionId := 0, streamId := 0, msgSeq := 0
    body := .control (.ping { timestampMs := 0, data := [1] }) }

/-- Attach, one HTTP request, then a CLI ping. -/
def c3trace : List (World × Event) :=
  [(wAll, .fetchCliConnect (some "t") (some "https://t.example") 100),
   (wAll, .fetchHttp reqPlain),
   (wAll, .cliMessage (.binary pingWire))]

/-- C3 counterexample: within one attach the session sends `requestInit`
(msgSeq 0), `requestEnd` (msgSeq 1) and then, answering a CLI ping, a pong
control frame carrying msgSeq 0 — the later-sent pong does not carry a
strictly greater msgSeq than the earlier frames, so the emitted msgSeq
sequence is not strictly increasing. -/
theorem c3_counterexample :
    (sentFrames (run (restoreFromHibernation wAll [] 0) c3trace).2).map
        Envelope.msgSeq = [0, 1, 0] ∧
    ¬ List.Chain' (fun a b => a < b)
        ((sentFrames (run (restoreFromHibernation wAll [] 0) c3trace).2).map
          Envelope.msgSeq) := by
  refine ⟨rfl, ?_⟩
  have h : (sentFrames (run (restoreFromHibernation wAll [] 0) c3trace).2).map
      Envelope.msgSeq = [0, 1, 0] := rfl
  rw [h]
  simp [List.chain'_cons]

/-- C3 (amended): within one agent attach (no attach events in the trace,
counter staying within 32 bits), the HTTP and WebSocket frames the session
sends carry strictly increasing `msgSeq` values; control frames (pong,
goAway) are excluded — they always carry `msgSeq = 0`. -/
theorem c3_msgSeq_monotonic (s : SessionState) (tr : List (World × Event))
    (hna : ∀ we ∈ tr, ∀ tid turl sock,
      we.2 ≠ Event.fetchCliConnect tid turl sock)
    (hbound : (run s tr).1.globalMsgSeq ≤ 4294967296) :
    List.Chain' (fun a b => a < b) (hwsSeqs (run s tr).2) ∧
    (∀ f ∈ sentFrames (run s tr).2, isControl f.body = true → f.msgSeq = 0) := by
  obtain ⟨k, hg, hc, hs, hf⟩ := frameSpec_run tr s hna
  constructor
  · rw [hs]
    have hk : s.globalMsgSeq + k ≤ 4294967296 := by omega
    have hid : (List.range' s.globalMsgSeq k).map u32 =
        List.range' s.globalMsgSeq k := by
      have hcongr : ∀ x ∈ List.range' s.globalMsgSeq k, u32 x = id x := by
        intro x hx
        have hlt := (List.mem_range'_1.mp hx).2
        exact u32_small (by omega)
      rw [List.map_congr_left hcongr, List.map_id]
    rw [hid]
    exact (List.pairwise_lt_range' _ _).chain'
  · intro f hf2 hcf
    exact (hf f hf2).2 hcf

/-- C3 witness: the amended theorem on a one-request trace. -/
theorem c3_witness :
    List.Chain' (fun a b => a < b)
      (hwsSeqs (run sOnePending [(wAll, .fetchHttp reqPlain)]).2) ∧
    (∀ f ∈ sentFrames (run sOnePending [(wAll, .fetchHttp reqPlain)]).2,
      isControl f.body = true → f.msgSeq = 0) :=
  c3_msgSeq_monotonic sOnePending [(wAll, .fetchHttp reqPlain)]
    (by
      intro we hwe tid turl sock
      simp only [List.mem_singleton] at hwe
      subst hwe
      exact fun h => Event.noConfusion h)
    (by decide)

/-! ### C9 — connectionId stability -/

/-- A world whose clock reads 2000 (a later moment than `wAll`). -/
def w2k : World := { nowMs := 2000, isOpen := fun _ => true }

/-- Attach at time 1000, then serve one HTTP request. -/
def c9run1 : SessionState × List Effect :=
  run (restoreFromHibernation wAll [] 0)
    [(wAll, .fetchCliConnect (some "t") (some "https://t.example") 100),
     (wAll, .fetchHttp reqPlain)]

/-- The instance restarted at time 2000 with the same CLI socket surviving. -/
def c9restored : SessionState :=
  restoreFromHibernation w2k [(100, .cli "t" "https://t.example")]
    c9run1.1.nextToken

/-- One more HTTP request after the restore. -/
def c9run2 : SessionState × List Effect :=
  run c9restored [(w2k, .fetchHttp reqPlain)]

/-- C9 counterexample: with the same agent socket (id 100) surviving a
hibernation restore, the frames sent before the restore carry
connectionId 1000 while the frames sent after it carry connectionId 2000 —
the connectionId is not fixed for the lifetime of the attach. -/
theorem c9_counterexample :
    c9run1.1.cliSocket = some 100 ∧
    c9restored.cliSocket = some 100 ∧
    (sentFrames c9run1.2).map Envelope.connectionId = [1000, 1000] ∧
    (sentFrames c9run2.2).map Envelope.connectionId = [2000, 2000] ∧
    (1000 : Nat) ≠ 2000 := by
  exact ⟨rfl, rfl, rfl, rfl, by decide⟩

/-- C9 (amended): between an attach and the next hibernation restore (a
trace with no attach event; restores restart the instance and are not trace
events), the session's connectionId is fixed and every frame it sends
carries its 64-bit image; a restore, however, reassigns connectionId from
the current clock, so the value is not preserved across restores. -/
theorem c9_connection_id_fixed (s : SessionState) (tr : List (World × Event))
    (hna : ∀ we ∈ tr, ∀ tid turl sock,
      we.2 ≠ Event.fetchCliConnect tid turl sock) :
    (run s tr).1.connectionId = s.connectionId ∧
    ∀ f ∈ sentFrames (run s tr).2, f.connectionId = u64 s.connectionId := by
  obtain ⟨k, hg, hc, hs, hf⟩ := frameSpec_run tr s hna
  exact ⟨hc, fun f h => (hf f h).1⟩

/-- C9 witness: the amended theorem on a one-request trace. -/
theorem c9_witness :
    (run sOnePending [(wAll, .fetchHttp reqPlain)]).1.connectionId =
      sOnePending.connectionId ∧
    ∀ f ∈ sentFrames (run sOnePending [(wAll, .fetchHttp reqPlain)]).2,
      f.connectionId = u64 sOnePending.connectionId :=
  c9_connection_id_fixed sOnePending [(wAll, .fetchHttp reqPlain)]
    (by
      intro we hwe tid turl sock
      simp only [List.mem_singleton] at hwe
      subst hwe
      exact fun h => Event.noConfusion h)

/-! ### C4 — agent reconnect -/

/-- Every pending stream's fail effect occurs in `failEffects`. -/
theorem failEffects_mem (l : List (Nat × PendingHttpStream)) (r : String) :
    ∀ kv ∈ l,
      Effect.clearTimer kv.2.token ∈ failEffects l r ∧
      (if kv.2.responseStarted then Effect.writerAbort kv.2.token r
       else Effect.rejectResponse kv.2.token r) ∈ failEffects l r := by
  induction l with
  | nil => intro kv h; cases h
  | cons kv0 rest ih =>
      intro kv h
      rcases List.mem_cons.mp h with h | h
      · subst h
        constructor <;> simp [failEffects]
      · have := ih kv h
        constructor
        · exact List.mem_cons_of_mem _ (List.mem_cons_of_mem _ this.1)
        · exact List.mem_cons_of_mem _ (List.mem_cons_of_mem _ this.2)

/-- C4 (amended): a second attach while an agent socket is open sends the
old socket a goAway and closes it with 1000; every in-flight HTTP stream is
failed with reason "CLI reconnected" and the HTTP map is cleared, but client
WebSocket streams are left untouched; then connectionId is rotated to the
clock and nextStreamId and globalMsgSeq reset to 1 and 0. -/
theorem c4_reconnect (w : World) (s : SessionState) (old newSock : Nat)
    (tid turl : String)
    (hold : s.cliSocket = some old) (hopen : w.isOpen old = true)
    (htid : tid.isEmpty = false) (hturl : turl.isEmpty = false) :
    handleCliConnect w s (some tid) (some turl) newSock =
      ({ (failAllPendingStreams s "CLI reconnected").1 with
          cliSocket := some newSock, tunnelPublicId := some tid,
          tunnelUrl := some turl, connectionId := w.nowMs,
          nextStreamId := 1, globalMsgSeq := 0 },
       [Effect.sendCli (encodeControlGoAway w.nowMs s.connectionId
          s.globalMsgSeq "Replaced by new connection"),
        Effect.closeSocket old 1000 "Replaced by new connection"] ++
         failEffects s.pendingHttpStreams "CLI reconnected" ++
         [Effect.acceptWebSocket newSock,
          Effect.sendCliText (tunnelReadyJson w.nowMs turl),
          Effect.dbUpdateStatus tid "online"],
       .upgraded newSock) ∧
    (failAllPendingStreams s "CLI reconnected").1.pendingHttpStreams = [] ∧
    (failAllPendingStreams s "CLI reconnected").1.clientWsStreams =
      s.clientWsStreams ∧
    (∀ kv ∈ s.pendingHttpStreams,
      (if kv.2.responseStarted then
        Effect.writerAbort kv.2.token "CLI reconnected"
       else Effect.rejectResponse kv.2.token "CLI reconnected") ∈
        failEffects s.pendingHttpStreams "CLI reconnected") := by
  refine ⟨?_, by simp [failAllPendingStreams], by simp [failAllPendingStreams],
    fun kv h => (failEffects_mem s.pendingHttpStreams "CLI reconnected" kv h).2⟩
  simp [handleCliConnect, htid, hturl, hold, hopen, failAllPendingStreams,
    tunnelReadyJson]

/-- A session with an open CLI socket and one open client WebSocket stream
(public socket 9). -/
def sWithWs : SessionState :=
  { cliSocket := some 5, connectionId := 500, tunnelPublicId := some "t"
    tunnelUrl := some "https://t.example"
    pendingHttpStreams := []
    clientWsStreams := [(1, { streamId := 1, socketId := 9, msgSeq := 0 })]
    nextStreamId := 2, globalMsgSeq := 7, armedTimers := [], nextToken := 3 }

/-- C4 counterexample: a second attach with a client WebSocket stream in
flight leaves that stream in the WebSocket map, and the attach emits no
effect that closes or fails the public socket 9 — the in-flight WebSocket
stream is not failed with "CLI reconnected" (only the old agent socket 5 is
closed). -/
theorem c4_counterexample :
    (handleCliConnect wAll sWithWs (some "t") (some "https://t.example")
        6).1.clientWsStreams =
      [(1, { streamId := 1, socketId := 9, msgSeq := 0 })] ∧
    (handleCliConnect wAll sWithWs (some "t") (some "https://t.example")
        6).2.1 =
      [Effect.sendCli (encodeControlGoAway 1000 500 7
          "Replaced by new connection"),
       Effect.closeSocket 5 1000 "Replaced by new connection",
       Effect.acceptWebSocket 6,
       Effect.sendCliText (tunnelReadyJson 1000 "https://t.example"),
       Effect.dbUpdateStatus "t" "online"] := by
  exact ⟨rfl, rfl⟩

/-- C4 witness: the amended theorem at the concrete session with one client
WebSocket stream and one pending HTTP stream. -/
theorem c4_witness :
    handleCliConnect wAll sOnePending (some "t2") (some "https://u.example")
        8 =
      ({ (failAllPendingStreams sOnePending "CLI reconnected").1 with
          cliSocket := some 8, tunnelPublicId := some "t2",
          tunnelUrl := some "https://u.example", connectionId := wAll.nowMs,
          nextStreamId := 1, globalMsgSeq := 0 },
       [Effect.sendCli (encodeControlGoAway wAll.nowMs
          sOnePending.connectionId sOnePending.globalMsgSeq
          "Replaced by new connection"),
        Effect.closeSocket 7 1000 "Replaced by new connection"] ++
         failEffects sOnePending.pendingHttpStreams "CLI reconnected" ++
         [Effect.acceptWebSocket 8,
          Effect.sendCliText (tunnelReadyJson wAll.nowMs "https://u.example"),
          Effect.dbUpdateStatus "t2" "online"],
       .upgraded 8) :=
  (c4_reconnect wAll sOnePending 7 8 "t2" "https://u.example"
    rfl rfl rfl rfl).1

/-! ### C2 — concurrent stream cap -/

/-- `mset` grows the map by at most one entry. -/
theorem mset_length_le {α : Type} (m : List (Nat × α)) (k : Nat) (v : α) :
    (mset m k v).length ≤ m.length + 1 := by
  induction m with
  | nil => simp [mset]
  | cons kv rest ih =>
      by_cases h : kv.1 = k <;> simp [mset, h] <;> omega

/-- `mset` on a present key keeps the map's size. -/
theorem mset_length_of_isSome {α : Type} (m : List (Nat × α)) (k : Nat)
    (v : α) (h : (mget m k).isSome) : (mset m k v).length = m.length := by
  induction m with
  | nil => simp [mget] at h
  | cons kv rest ih =>
      by_cases hk : kv.1 = k
      · simp [mset, hk]
      · have h2 : (mget rest k).isSome := by simpa [mget, hk] using h
        simp [mset, hk, ih h2]

/-- `mdelete` never grows the map. -/
theorem mdelete_length_le {α : Type} (m : List (Nat × α)) (k : Nat) :
    (mdelete m k).length ≤ m.length := by
  induction m with
  | nil => simp [mdelete]
  | cons kv rest ih =>
      by_cases h : kv.1 = k <;> simp [mdelete, h] <;> omega

/-- Every step keeps the pending-HTTP map within the stream cap. -/
theorem step_http_len (w : World) (s : SessionState) (e : Event)
    (h : s.pendingHttpStreams.length ≤ MAX_CONCURRENT_STREAMS) :
    (step w s e).1.pendingHttpStreams.length ≤ MAX_CONCURRENT_STREAMS := by
  cases e with
  | fetchCliConnect tid turl sock =>
      rcases tid with _ | tid <;> rcases turl with _ | turl
      · simpa [step, handleCliConnect] using h
      · simpa [step, handleCliConnect] using h
      · simpa [step, handleCliConnect] using h
      · by_cases hre : (tid.isEmpty = true ∨ turl.isEmpty = true)
        · simpa [step, handleCliConnect, hre] using h
        · simp [step, handleCliConnect, hre, failAllPendingStreams]
  | fetchHttp req =>
      by_cases h1 : s.cliOpen w = true
      · by_cases h2 : s.pendingHttpStreams.length ≥ MAX_CONCURRENT_STREAMS
        · simpa [step, proxyHttpRequest, h1, h2] using h
        · by_cases h3 : req.hasBody <;>
            · simp [step, proxyHttpRequest, h1, h2, h3]
              have := mset_length_le s.pendingHttpStreams s.nextStreamId
                { streamId := s.nextStreamId, token := s.nextToken
                  responseStarted := false, responseStatus := none
                  responseHeaders := none, msgSeq := 0, reqBodySeq := 0
                  pendingWsUpgrade := none }
              simp [MAX_CONCURRENT_STREAMS] at h2 ⊢
              omega
      · simpa [step, proxyHttpRequest, h1] using h
  | fetchClientWs req sock =>
      by_cases h1 : s.cliOpen w = true
      · by_cases h2 : s.pendingHttpStreams.length + s.clientWsStreams.length ≥
            MAX_CONCURRENT_STREAMS
        · simpa [step, handleClientWebSocket, h1, h2] using h
        · simp [step, handleClientWebSocket, h1, h2]
          have := mset_length_le s.pendingHttpStreams s.nextStreamId
            { streamId := s.nextStreamId, token := s.nextToken
              responseStarted := false, responseStatus := none
              responseHeaders := none, msgSeq := 0, reqBodySeq := 0
              pendingWsUpgrade := some sock }
          simp [MAX_CONCURRENT_STREAMS] at h2 ⊢
          omega
      · simpa [step, handleClientWebSocket, h1] using h
  | cliMessage m =>
      cases m with
      | text str => simpa [step, handleCliMessage] using h
      | binary wire =>
          rcases hd : decodeEnvelope wire with e2 | env
          · simpa [step, handleCliMessage, hd] using h
          · cases env with
            | http sid cid seq m2 =>
                simp only [step, handleCliMessage, hd, handleDecodedEnvelope]
                unfold handleHttpMessage
                rcases hm : mget s.pendingHttpStreams sid with _ | st
                · simpa using h
                · have hsome : (mget s.pendingHttpStreams sid).isSome := by
                    simp [hm]
                  cases m2
                  case responseInit d =>
                    rcases hupg : st.pendingWsUpgrade with _ | sock2
                    · simp [hupg,
                        mset_length_of_isSome s.pendingHttpStreams sid _ hsome,
                        h]
                    · by_cases hst : d.status = 101 <;>
                        · simp [hupg, hst]
                          have := mdelete_length_le s.pendingHttpStreams sid
                          omega
                  case responseBodyChunk d =>
                    by_cases hrs : st.responseStarted = true <;>
                      simpa [hrs] using h
                  case responseEnd t =>
                    have := mdelete_length_le s.pendingHttpStreams sid
                    simp only []
                    simpa using by omega
                  case responseAbort reason detail =>
                    rcases hupg : st.pendingWsUpgrade with _ | sock2 <;>
                      · simp [hupg]
                        have := mdelete_length_le s.pendingHttpStreams sid
                        omega
                  all_goals simpa using h
            | ws sid cid seq fr =>
                simp only [step, handleCliMessage, hd, handleDecodedEnvelope]
                unfold handleWebSocketFrame
                rcases hm : mget s.clientWsStreams sid with _ | cs
                · simpa using h
                · by_cases ho : w.isOpen cs.socketId = true
                  · cases fr.opcode <;> simp [ho] <;> simpa using h
                  · simp [ho]
                    simpa using h
            | control sid cid seq c =>
                simp only [step, handleCliMessage, hd, handleDecodedEnvelope]
                cases c with
                | ping t data =>
                    by_cases h1 : s.cliOpen w = true <;>
                      simp [handleControlMessage, h1] <;> simpa using h
                | pong t data => simpa [handleControlMessage] using h
                | error t code msg => simpa [handleControlMessage] using h
                | goAway t l r => simpa [handleControlMessage] using h
  | clientWsMessage sid msg =>
      by_cases h1 : s.cliOpen w = true
      · rcases hm : mget s.clientWsStreams sid with _ | cs <;>
          simpa [step, handleClientWsMessage, h1, hm] using h
      · simpa [step, handleClientWsMessage, h1] using h
  | cliSocketClosed code reason =>
      simp [step, handleCliDisconnect, failAllPendingStreams]
  | clientWsSocketClosed sid code reason =>
      by_cases h1 : SessionState.cliOpen
          { s with clientWsStreams := mdelete s.clientWsStreams sid } w = true <;>
        simpa [step, handleClientWsClose, h1] using h
  | timer token =>
      rcases hf : s.armedTimers.find? (fun t => t.token == token) with _ | tr
      · simpa [step, timerFire, hf] using h
      · cases hk : tr.kind with
        | httpTimeout =>
            rcases hm : mget s.pendingHttpStreams tr.streamId with _ | st
            · simpa [step, timerFire, hf, hk, hm] using h
            · by_cases h1 : SessionState.cliOpen
                  { s with
                    armedTimers := disarm s.armedTimers token
                    pendingHttpStreams :=
                      mdelete s.pendingHttpStreams tr.streamId } w = true <;>
                · simp [step, timerFire, hf, hk, hm, h1]
                  have := mdelete_length_le s.pendingHttpStreams tr.streamId
                  omega
        | wsUpgradeTimeout sock =>
            rcases hm : mget s.pendingHttpStreams tr.streamId with _ | st
            · simpa [step, timerFire, hf, hk, hm] using h
            · simp [step, timerFire, hf, hk, hm]
              have := mdelete_length_le s.pendingHttpStreams tr.streamId
              omega
  | bodyRead sid item =>
      rcases hm : mget s.pendingHttpStreams sid with _ | st
      · simpa [step, streamRequestBodyStep, hm] using h
      · by_cases h1 : s.cliOpen w = true
        · cases item with
          | none => simpa [step, streamRequestBodyStep, hm, h1] using h
          | some bytes =>
              have hsome : (mget s.pendingHttpStreams sid).isSome := by
                simp [hm]
              simpa [step, streamRequestBodyStep, hm, h1,
                mset_length_of_isSome s.pendingHttpStreams sid _ hsome]
                using h
        · simpa [step, streamRequestBodyStep, hm, h1] using h
  | bodyReadError sid msg =>
      by_cases h1 : (s.cliOpen w &&
          (mget s.pendingHttpStreams sid).isSome) = true <;>
        simpa [step, streamRequestBodyError, h1] using h

/-- A public WebSocket upgrade request. -/
def wsUpgradeReq : HttpRequestIn :=
  { method := "GET", pathAndQuery := "/ws"
    headers := [("upgrade", [119, 101, 98])], hasBody := false }

/-- A wire `responseInit{101}` for stream 1 from the CLI. -/
def resp101Wire : Envelope :=
  { timestampMs := 0, connectionId := 0, streamId := 1, msgSeq := 0
    body := .http (.responseInit
      { timestampMs := 0, status := 101, headers := [], hasBody := false
        contentLength := 0 }) }

/-- Attach; one WebSocket upgrade that the CLI confirms (promoting stream 1
into the WebSocket map); then 99 plain HTTP requests. -/
def c2trace : List (World × Event) :=
  [(wAll, .fetchCliConnect (some "t") (some "https://t.example") 100),
   (wAll, .fetchClientWs wsUpgradeReq 200),
   (wAll, .cliMessage (.binary resp101Wire))] ++
    List.replicate 99 (wAll, .fetchHttp reqPlain)

/-- The session state reached by `c2trace`: 99 pending HTTP streams plus one
open client WebSocket stream. -/
def c2state : SessionState := (run (restoreFromHibernation wAll [] 0) c2trace).1

set_option maxRecDepth 40000 in
/-- C2 counterexample: in the reachable state `c2state` the total number of
in-flight streams is already `MAX_CONCURRENT_STREAMS` (99 HTTP + 1 WS), yet
the next plain HTTP request is admitted — a stream id is allocated and a
pending promise returned instead of a 503 — after which the total exceeds
the cap. -/
theorem c2_counterexample :
    c2state.pendingHttpStreams.length + c2state.clientWsStreams.length =
      MAX_CONCURRENT_STREAMS ∧
    (proxyHttpRequest wAll c2state reqPlain).2.2 =
      .promise c2state.nextToken ∧
    (proxyHttpRequest wAll c2state reqPlain).1.nextStreamId =
      c2state.nextStreamId + 1 ∧
    (proxyHttpRequest wAll c2state reqPlain).1.pendingHttpStreams.length +
      (proxyHttpRequest wAll c2state reqPlain).1.clientWsStreams.length =
      MAX_CONCURRENT_STREAMS + 1 := by
  exact ⟨rfl, rfl, rfl, rfl⟩

/-- C2 (amended): a plain HTTP request is refused with 503 exactly when
`|HTTP streams| ≥ maxConcurrentStreams` — client WebSocket streams are not
counted — and otherwise admitted; a WebSocket upgrade is refused with 503
when `|HTTP| + |WS| ≥ maxConcurrentStreams`; consequently
`|HTTP streams| ≤ maxConcurrentStreams` is an invariant of every step,
while `|HTTP| + |WS|` can exceed the cap. -/
theorem c2_stream_caps (w : World) (s : SessionState) :
    (∀ req : HttpRequestIn, s.cliOpen w = true →
      (s.pendingHttpStreams.length ≥ MAX_CONCURRENT_STREAMS →
        proxyHttpRequest w s req =
          (s, [], .response 503 "Too many concurrent requests")) ∧
      (s.pendingHttpStreams.length < MAX_CONCURRENT_STREAMS →
        (proxyHttpRequest w s req).2.2 = .promise s.nextToken ∧
        (proxyHttpRequest w s req).1.pendingHttpStreams.length ≤
          MAX_CONCURRENT_STREAMS)) ∧
    (∀ (req : HttpRequestIn) (sock : Nat), s.cliOpen w = true →
      s.pendingHttpStreams.length + s.clientWsStreams.length ≥
          MAX_CONCURRENT_STREAMS →
      handleClientWebSocket w s req sock =
        (s, [], .response 503 "Too many concurrent connections")) ∧
    (∀ e : Event, s.pendingHttpStreams.length ≤ MAX_CONCURRENT_STREAMS →
      (step w s e).1.pendingHttpStreams.length ≤ MAX_CONCURRENT_STREAMS) := by
  refine ⟨?_, ?_, fun e he => step_http_len w s e he⟩
  · intro req hopen
    constructor
    · intro hge
      simp [proxyHttpRequest, hopen, hge]
    · intro hlt
      have hge : ¬ s.pendingHttpStreams.length ≥ MAX_CONCURRENT_STREAMS := by
        omega
      by_cases hb : req.hasBody
      · refine ⟨by simp [proxyHttpRequest, hopen, hge, hb], ?_⟩
        simp [proxyHttpRequest, hopen, hge, hb]
        have := mset_length_le s.pendingHttpStreams s.nextStreamId
          { streamId := s.nextStreamId, token := s.nextToken
            responseStarted := false, responseStatus := none
            responseHeaders := none, msgSeq := 0, reqBodySeq := 0
            pendingWsUpgrade := none }
        simp [MAX_CONCURRENT_STREAMS] at hlt ⊢
        omega
      · refine ⟨by simp [proxyHttpRequest, hopen, hge, hb], ?_⟩
        simp [proxyHttpRequest, hopen, hge, hb]
        have := mset_length_le s.pendingHttpStreams s.nextStreamId
          { streamId := s.nextStreamId, token := s.nextToken
            responseStarted := false, responseStatus := none
            responseHeaders := none, msgSeq := 0, reqBodySeq := 0
            pendingWsUpgrade := none }
        simp [MAX_CONCURRENT_STREAMS] at hlt ⊢
        omega
  · intro req sock hopen hge
    simp [handleClientWebSocket, hopen, hge]

/-- A session at the stream cap: 100 pending HTTP streams. -/
def sAtCap : SessionState :=
  { cliSocket := some 7, connectionId := 1000, tunnelPublicId := some "t"
    tunnelUrl := some "https://t.example"
    pendingHttpStreams := (List.range 100).map fun i =>
      (i + 1,
       { streamId := i + 1, token := i, responseStarted := false
         responseStatus := none, responseHeaders := none, msgSeq := 0
         reqBodySeq := 0, pendingWsUpgrade := none })
    clientWsStreams := []
    nextStreamId := 101, globalMsgSeq := 200, armedTimers := []
    nextToken := 100 }

/-- C2 witness: the amended theorem at concrete sessions — refusal at the
cap, admission below it, and cap preservation across a step. -/
theorem c2_witness :
    (proxyHttpRequest wAll sAtCap reqPlain =
      (sAtCap, [], .response 503 "Too many concurrent requests")) ∧
    ((proxyHttpRequest wAll sOnePending reqPlain).2.2 =
      .promise sOnePending.nextToken ∧
     (proxyHttpRequest wAll sOnePending reqPlain).1.pendingHttpStreams.length ≤
       MAX_CONCURRENT_STREAMS) ∧
    (handleClientWebSocket wAll sAtCap wsUpgradeReq 300 =
      (sAtCap, [], .response 503 "Too many concurrent connections")) ∧
    ((step wAll sOnePending (.fetchHttp reqPlain)).1.pendingHttpStreams.length ≤
      MAX_CONCURRENT_STREAMS) := by
  refine ⟨((c2_stream_caps wAll sAtCap).1 reqPlain rfl).1 (by decide), ?_, ?_, ?_⟩
  · exact ((c2_stream_caps wAll sOnePending).1 reqPlain rfl).2 (by decide)
  · exact (c2_stream_caps wAll sAtCap).2.1 wsUpgradeReq 300 rfl (by decide)
  · exact (c2_stream_caps wAll sOnePending).2.2 (.fetchHttp reqPlain)
      (by decide)

/-! ### C10 — responseEnd before responseInit -/

/-- Whether an effect settles (resolves or rejects) the promise named `p`. -/
def settles (p : Nat) : Effect → Bool
  | .resolveResponse tok _ _ _ => tok == p
  | .rejectResponse tok _ => tok == p
  | _ => false

/-- No effect in the list settles the promise named `p`. -/
def NoSettle (p : Nat) (effs : List Effect) : Prop :=
  ∀ e ∈ effs, settles p e = false

/-- The promise named `p` is dead: no live stream or armed timer holds its
token, and the fresh-token supply has moved past it. -/
def TokenFree (p : Nat) (s : SessionState) : Prop :=
  (∀ kv ∈ s.pendingHttpStreams, kv.2.token ≠ p) ∧
  (∀ t ∈ s.armedTimers, t.token ≠ p) ∧
  p < s.nextToken

/-- The empty effect list settles nothing. -/
theorem noSettle_nil {p : Nat} : NoSettle p [] := by
  intro e he
  cases he

/-- `NoSettle` combines over append. -/
theorem noSettle_append {p : Nat} {a b : List Effect} (ha : NoSettle p a)
    (hb : NoSettle p b) : NoSettle p (a ++ b) := by
  intro e he
  rcases List.mem_append.mp he with h | h
  exacts [ha e h, hb e h]

/-- `NoSettle` extends over a non-settling head. -/
theorem noSettle_cons {p : Nat} {e : Effect} {effs : List Effect}
    (h1 : settles p e = false) (h2 : NoSettle p effs) :
    NoSettle p (e :: effs) := by
  intro x hx
  rcases List.mem_cons.mp hx with h | h
  · rw [h]
    exact h1
  · exact h2 x h

/-- Membership after `mset`: an old entry or the new binding. -/
theorem mem_mset {α : Type} {m : List (Nat × α)} {k : Nat} {v : α}
    {kv : Nat × α} (h : kv ∈ mset m k v) : kv ∈ m ∨ kv = (k, v) := by
  induction m with
  | nil => simpa [mset] using h
  | cons kv0 rest ih =>
      obtain ⟨k0, v0⟩ := kv0
      by_cases hk : k0 = k
      · simp [mset, hk] at h
        rcases h with h | h
        · right
          simp [h, hk]
        · left
          exact List.mem_cons_of_mem _ h
      · simp [mset, hk] at h
        rcases h with h | h
        · left
          simp [h]
        · rcases ih h with h2 | h2
          · exact Or.inl (List.mem_cons_of_mem _ h2)
          · exact Or.inr h2

/-- Membership after `mdelete` implies prior membership. -/
theorem mem_mdelete {α : Type} {m : List (Nat × α)} {k : Nat} {kv : Nat × α}
    (h : kv ∈ mdelete m k) : kv ∈ m := by
  induction m with
  | nil => simpa [mdelete] using h
  | cons kv0 rest ih =>
      by_cases hk : kv0.1 = k
      · simp [mdelete, hk] at h
        exact List.mem_cons_of_mem _ h
      · simp [mdelete, hk] at h
        rcases h with h | h
        · simp [h]
        · exact List.mem_cons_of_mem _ (ih h)

/-- A successful `mget` produces a member of the map. -/
theorem mget_mem {α : Type} {m : List (Nat × α)} {k : Nat} {v : α}
    (h : mget m k = some v) : (k, v) ∈ m := by
  induction m with
  | nil => simp [mget] at h
  | cons kv0 rest ih =>
      obtain ⟨k0, v0⟩ := kv0
      by_cases hk : k0 = k
      · simp [mget, hk] at h
        simp [hk, h]
      · simp [mget, hk] at h
        exact List.mem_cons_of_mem _ (ih h)

/-- Membership after `disarm`: still armed and with a different token. -/
theorem mem_disarm {l : List TimerRec} {tok : Nat} {t : TimerRec}
    (h : t ∈ disarm l tok) : t ∈ l ∧ t.token ≠ tok := by
  unfold disarm at h
  have h2 := List.mem_filter.mp h
  refine ⟨h2.1, ?_⟩
  simpa using h2.2

/-- `failEffects` over dead-token-free streams settles nothing at `p`. -/
theorem noSettle_failEffects {p : Nat} {l : List (Nat × PendingHttpStream)}
    {r : String} (h : ∀ kv ∈ l, kv.2.token ≠ p) :
    NoSettle p (failEffects l r) := by
  induction l with
  | nil => exact noSettle_nil
  | cons kv rest ih =>
      have hkv := h kv (by simp)
      have hrest := ih fun x hx => h x (List.mem_cons_of_mem _ hx)
      intro e he
      simp [failEffects] at he
      rcases he with he | he | he
      · simp [he, settles]
      · by_cases hrs : kv.2.responseStarted = true <;>
          simp [hrs] at he <;> simp [he, settles, hkv]
      · exact hrest e he

/-- `closeClientEffects` settles nothing. -/
theorem noSettle_closeClientEffects {p : Nat} (w : World)
    (l : List (Nat × ClientWsStream)) : NoSettle p (closeClientEffects w l) := by
  induction l with
  | nil => exact noSettle_nil
  | cons kv rest ih =>
      intro e he
      by_cases ho : w.isOpen kv.2.socketId = true
      · simp [closeClientEffects, ho] at he
        rcases he with he | he
        · simp [he, settles]
        · exact ih e he
      · simp [closeClientEffects, ho] at he
        exact ih e he

/-- `handleHttpMessage` preserves token-freeness and settles nothing at a
dead token. -/
theorem tokenFree_handleHttpMessage (p : Nat) (w : World) (s : SessionState)
    (sid : Nat) (m : DecodedHttpMessage) (h : TokenFree p s) :
    TokenFree p (handleHttpMessage w s sid m).1 ∧
    NoSettle p (handleHttpMessage w s sid m).2 := by
  obtain ⟨h1, h2, h3⟩ := h
  rcases hm : mget s.pendingHttpStreams sid with _ | st
  · rw [(by simp [handleHttpMessage, hm] :
      handleHttpMessage w s sid m = (s, []))]
    exact ⟨⟨h1, h2, h3⟩, noSettle_nil⟩
  · have hst : st.token ≠ p := h1 (sid, st) (mget_mem hm)
    have hdel : ∀ kv ∈ mdelete s.pendingHttpStreams sid, kv.2.token ≠ p :=
      fun kv hkv => h1 kv (mem_mdelete hkv)
    have hdis : ∀ tok : Nat, ∀ t2 ∈ disarm s.armedTimers tok, t2.token ≠ p :=
      fun tok t2 ht2 => h2 t2 (mem_disarm ht2).1
    cases m with
    | responseInit d =>
        rcases hupg : st.pendingWsUpgrade with _ | sock
        · rw [(by simp [handleHttpMessage, hm, hupg] :
            handleHttpMessage w s sid (.responseInit d) =
              ({ s with
                  pendingHttpStreams := mset s.pendingHttpStreams sid
                    { st with
                        responseStatus := some d.status
                        responseHeaders := some d.headers
                        responseStarted := true } },
               [.resolveResponse st.token d.status d.hasBody d.headers]))]
          refine ⟨⟨?_, h2, h3⟩, ?_⟩
          · intro kv hkv
            rcases mem_mset hkv with hkv | hkv
            · exact h1 kv hkv
            · rw [hkv]
              simpa using hst
          · intro e he
            simp at he
            simp [he, settles, hst]
        · by_cases hstat : d.status = 101
          · rw [(by simp [handleHttpMessage, hm, hupg, hstat] :
              handleHttpMessage w s sid (.responseInit d) =
                ({ s with
                    armedTimers := disarm s.armedTimers st.token
                    clientWsStreams := mset s.clientWsStreams sid
                      { streamId := sid, socketId := sock, msgSeq := 0 }
                    pendingHttpStreams := mdelete s.pendingHttpStreams sid },
                 [.clearTimer st.token]))]
            refine ⟨⟨hdel, hdis st.token, h3⟩, ?_⟩
            intro e he
            simp at he
            simp [he, settles]
          · rw [(by simp [handleHttpMessage, hm, hupg, hstat] :
              handleHttpMessage w s sid (.responseInit d) =
                ({ s with
                    armedTimers := disarm s.armedTimers st.token
                    pendingHttpStreams := mdelete s.pendingHttpStreams sid },
                 .clearTimer st.token ::
                   (if w.isOpen sock then
                      [.closeSocket sock 1002
                        ("Upstream rejected: " ++ toString d.status)]
                    else [])))]
            refine ⟨⟨hdel, hdis st.token, h3⟩, ?_⟩
            intro e he
            by_cases ho : w.isOpen sock = true <;> simp [ho] at he
            · rcases he with he | he <;> simp [he, settles]
            · simp [he, settles]
    | responseBodyChunk d =>
        rw [(by
            simp only [handleHttpMessage, hm]
            split <;> simp_all :
          handleHttpMessage w s sid (.responseBodyChunk d) =
            (s, if st.responseStarted then [.writerWrite st.token d.data]
                else []))]
        refine ⟨⟨h1, h2, h3⟩, ?_⟩
        intro e he
        by_cases hrs : st.responseStarted = true <;> simp [hrs] at he
        · simp [he, settles]
    | responseEnd t =>
        rw [(by simp [handleHttpMessage, hm] :
          handleHttpMessage w s sid (.responseEnd t) =
            ({ s with
                armedTimers := disarm s.armedTimers st.token
                pendingHttpStreams := mdelete s.pendingHttpStreams sid },
             .clearTimer st.token ::
               (if st.responseStarted then [.writerClose st.token] else [])))]
        refine ⟨⟨hdel, hdis st.token, h3⟩, ?_⟩
        intro e he
        by_cases hrs : st.responseStarted = true <;> simp [hrs] at he
        · rcases he with he | he <;> simp [he, settles]
        · simp [he, settles]
    | responseAbort reason detail =>
        rcases hupg : st.pendingWsUpgrade with _ | sock
        · rw [(by simp [handleHttpMessage, hm, hupg] :
            handleHttpMessage w s sid (.responseAbort reason detail) =
              ({ s with
                  armedTimers := disarm s.armedTimers st.token
                  pendingHttpStreams := mdelete s.pendingHttpStreams sid },
               [.clearTimer st.token,
                if st.responseStarted then
                  .writerAbort st.token
                    (if detail.isEmpty then "Response aborted" else detail)
                else
                  .rejectResponse st.token
                    (if detail.isEmpty then "Response aborted" else detail)]))]
          refine ⟨⟨hdel, hdis st.token, h3⟩, ?_⟩
          intro e he
          simp at he
          rcases he with he | he
          · simp [he, settles]
          · by_cases hrs : st.responseStarted = true <;>
              simp [hrs] at he <;> simp [he, settles, hst]
        · rw [(by simp [handleHttpMessage, hm, hupg] :
            handleHttpMessage w s sid (.responseAbort reason detail) =
              ({ s with
                  armedTimers := disarm s.armedTimers st.token
                  pendingHttpStreams := mdelete s.pendingHttpStreams sid },
               .clearTimer st.token ::
                 (if w.isOpen sock then
                    [.closeSocket sock 1011
                      (if detail.isEmpty then "WebSocket upgrade failed"
                       else detail)]
                  else [])))]
          refine ⟨⟨hdel, hdis st.token, h3⟩, ?_⟩
          intro e he
          by_cases ho : w.isOpen sock = true <;> simp [ho] at he
          · rcases he with he | he <;> simp [he, settles]
          · simp [he, settles]
    | requestInit d =>
        rw [(by simp [handleHttpMessage, hm] :
          handleHttpMessage w s sid (.requestInit d) = (s, []))]
        exact ⟨⟨h1, h2, h3⟩, noSettle_nil⟩
    | requestBodyChunk d =>
        rw [(by simp [handleHttpMessage, hm] :
          handleHttpMessage w s sid (.requestBodyChunk d) = (s, []))]
        exact ⟨⟨h1, h2, h3⟩, noSettle_nil⟩
    | requestEnd t =>
        rw [(by simp [handleHttpMessage, hm] :
          handleHttpMessage w s sid (.requestEnd t) = (s, []))]
        exact ⟨⟨h1, h2, h3⟩, noSettle_nil⟩
    | requestAbort reason detail =>
        rw [(by simp [handleHttpMessage, hm] :
          handleHttpMessage w s sid (.requestAbort reason detail) = (s, []))]
        exact ⟨⟨h1, h2, h3⟩, noSettle_nil⟩


/-- Every step preserves token-freeness and settles nothing at a dead
token: only live streams' closures can resolve or reject, and fresh streams
always draw fresh tokens. -/
theorem tokenFree_step (p : Nat) (w : World) (s : SessionState) (e : Event)
    (h : TokenFree p s) :
    TokenFree p (step w s e).1 ∧ NoSettle p (step w s e).2 := by
  obtain ⟨h1, h2, h3⟩ := h
  cases e with
  | fetchCliConnect tid turl sock =>
      rcases tid with _ | tid <;> rcases turl with _ | turl
      · exact ⟨⟨h1, h2, h3⟩, noSettle_nil⟩
      · exact ⟨⟨h1, h2, h3⟩, noSettle_nil⟩
      · exact ⟨⟨h1, h2, h3⟩, noSettle_nil⟩
      · by_cases hre : (tid.isEmpty = true ∨ turl.isEmpty = true)
        · rw [(by simp [step, handleCliConnect, hre] :
            step w s (.fetchCliConnect (some tid) (some turl) sock) = (s, []))]
          exact ⟨⟨h1, h2, h3⟩, noSettle_nil⟩
        · rw [(by simp [step, handleCliConnect, hre, failAllPendingStreams] :
            step w s (.fetchCliConnect (some tid) (some turl) sock) =
              ({ s with
                  cliSocket := some sock, tunnelPublicId := some tid,
                  tunnelUrl := some turl, connectionId := w.nowMs,
                  nextStreamId := 1, globalMsgSeq := 0,
                  pendingHttpStreams := [],
                  armedTimers := s.armedTimers.filter fun t =>
                    !((s.pendingHttpStreams.map fun kv => kv.2.token).contains
                      t.token) },
               (match s.cliSocket with
                 | some old =>
                     if w.isOpen old = true then
                       [Effect.sendCli (encodeControlGoAway w.nowMs
                          s.connectionId s.globalMsgSeq
                          "Replaced by new connection"),
                        Effect.closeSocket old 1000
                          "Replaced by new connection"]
                     else []
                 | none => []) ++
                 (failEffects s.pendingHttpStreams "CLI reconnected" ++
                   [Effect.acceptWebSocket sock,
                    Effect.sendCliText (tunnelReadyJson w.nowMs turl),
                    Effect.dbUpdateStatus tid "online"])))]
          refine ⟨⟨?_, ?_, ?_⟩, ?_⟩
          · intro kv hkv
            exact absurd hkv (List.not_mem_nil kv)
          · intro t ht
            exact h2 t (List.mem_filter.mp ht).1
          · exact h3
          · refine noSettle_append ?_
              (noSettle_append (noSettle_failEffects h1) ?_)
            · rcases hcs : s.cliSocket with _ | old
              · exact noSettle_nil
              · show NoSettle p (if w.isOpen old = true then
                    [Effect.sendCli (encodeControlGoAway w.nowMs
                        s.connectionId s.globalMsgSeq
                        "Replaced by new connection"),
                     Effect.closeSocket old 1000 "Replaced by new connection"]
                  else [])
                by_cases ho : w.isOpen old = true
                · rw [if_pos ho]
                  exact noSettle_cons (by simp [settles])
                    (noSettle_cons (by simp [settles]) noSettle_nil)
                · rw [if_neg ho]
                  exact noSettle_nil
            · exact noSettle_cons (by simp [settles])
                (noSettle_cons (by simp [settles])
                  (noSettle_cons (by simp [settles]) noSettle_nil))
  | fetchHttp req =>
      by_cases hopen : s.cliOpen w = true
      · by_cases hcap : s.pendingHttpStreams.length ≥ MAX_CONCURRENT_STREAMS
        · rw [(by simp [step, proxyHttpRequest, hopen, hcap] :
            step w s (.fetchHttp req) = (s, []))]
          exact ⟨⟨h1, h2, h3⟩, noSettle_nil⟩
        · have hmem : ∀ kv ∈ mset s.pendingHttpStreams s.nextStreamId
              ({ streamId := s.nextStreamId, token := s.nextToken
                 responseStarted := false, responseStatus := none
                 responseHeaders := none, msgSeq := 0, reqBodySeq := 0
                 pendingWsUpgrade := none } : PendingHttpStream),
              kv.2.token ≠ p := by
            intro kv hkv
            rcases mem_mset hkv with hkv | hkv
            · exact h1 kv hkv
            · rw [hkv]
              show s.nextToken ≠ p
              omega
          have htim : ∀ t ∈ ({ token := s.nextToken, streamId := s.nextStreamId, kind := TimerKind.httpTimeout } : TimerRec) :: s.armedTimers,
              t.token ≠ p := by
            intro t ht
            rcases List.mem_cons.mp ht with ht | ht
            · rw [ht]
              show s.nextToken ≠ p
              omega
            · exact h2 t ht
          by_cases hb : req.hasBody
          · rw [(by simp [step, proxyHttpRequest, hopen, hcap, hb] :
              step w s (.fetchHttp req) =
                ({ s with
                    nextStreamId := s.nextStreamId + 1
                    nextToken := s.nextToken + 1
                    pendingHttpStreams := mset s.pendingHttpStreams
                      s.nextStreamId
                      { streamId := s.nextStreamId, token := s.nextToken
                        responseStarted := false, responseStatus := none
                        responseHeaders := none, msgSeq := 0, reqBodySeq := 0
                        pendingWsUpgrade := none }
                    armedTimers :=
                      ({ token := s.nextToken, streamId := s.nextStreamId,
                         kind := TimerKind.httpTimeout } : TimerRec) ::
                        s.armedTimers
                    globalMsgSeq := s.globalMsgSeq + 1 },
                 [Effect.setTimer s.nextToken REQUEST_TIMEOUT_MS,
                  Effect.sendCli (encodeHttpRequestInit w.nowMs s.connectionId
                    s.nextStreamId s.globalMsgSeq req.method req.pathAndQuery
                    req.headers req.hasBody)]))]
            exact ⟨⟨hmem, htim, by show p < s.nextToken + 1; omega⟩,
              noSettle_cons (by simp [settles])
                (noSettle_cons (by simp [settles]) noSettle_nil)⟩
          · rw [(by simp [step, proxyHttpRequest, hopen, hcap, hb] :
              step w s (.fetchHttp req) =
                ({ s with
                    nextStreamId := s.nextStreamId + 1
                    nextToken := s.nextToken + 1
                    pendingHttpStreams := mset s.pendingHttpStreams
                      s.nextStreamId
                      { streamId := s.nextStreamId, token := s.nextToken
                        responseStarted := false, responseStatus := none
                        responseHeaders := none, msgSeq := 0, reqBodySeq := 0
                        pendingWsUpgrade := none }
                    armedTimers :=
                      ({ token := s.nextToken, streamId := s.nextStreamId,
                         kind := TimerKind.httpTimeout } : TimerRec) ::
                        s.armedTimers
                    globalMsgSeq := s.globalMsgSeq + 1 + 1 },
                 [Effect.setTimer s.nextToken REQUEST_TIMEOUT_MS,
                  Effect.sendCli (encodeHttpRequestInit w.nowMs s.connectionId
                    s.nextStreamId s.globalMsgSeq req.method req.pathAndQuery
                    req.headers req.hasBody),
                  Effect.sendCli (encodeHttpRequestEnd w.nowMs s.connectionId
                    s.nextStreamId (s.globalMsgSeq + 1))]))]
            exact ⟨⟨hmem, htim, by show p < s.nextToken + 1; omega⟩,
              noSettle_cons (by simp [settles])
                (noSettle_cons (by simp [settles])
                  (noSettle_cons (by simp [settles]) noSettle_nil))⟩
      · rw [(by simp [step, proxyHttpRequest, hopen] :
          step w s (.fetchHttp req) = (s, []))]
        exact ⟨⟨h1, h2, h3⟩, noSettle_nil⟩
  | fetchClientWs req sock =>
      by_cases hopen : s.cliOpen w = true
      · by_cases hcap : s.pendingHttpStreams.length + s.clientWsStreams.length ≥
            MAX_CONCURRENT_STREAMS
        · rw [(by simp [step, handleClientWebSocket, hopen, hcap] :
            step w s (.fetchClientWs req sock) = (s, []))]
          exact ⟨⟨h1, h2, h3⟩, noSettle_nil⟩
        · have hmem : ∀ kv ∈ mset s.pendingHttpStreams s.nextStreamId
              ({ streamId := s.nextStreamId, token := s.nextToken
                 responseStarted := false, responseStatus := none
                 responseHeaders := none, msgSeq := 0, reqBodySeq := 0
                 pendingWsUpgrade := some sock } : PendingHttpStream),
              kv.2.token ≠ p := by
            intro kv hkv
            rcases mem_mset hkv with hkv | hkv
            · exact h1 kv hkv
            · rw [hkv]
              show s.nextToken ≠ p
              omega
          have htim : ∀ t ∈ ({ token := s.nextToken, streamId := s.nextStreamId, kind := TimerKind.wsUpgradeTimeout sock } : TimerRec) :: s.armedTimers,
              t.token ≠ p := by
            intro t ht
            rcases List.mem_cons.mp ht with ht | ht
            · rw [ht]
              show s.nextToken ≠ p
              omega
            · exact h2 t ht
          rw [(by simp [step, handleClientWebSocket, hopen, hcap] :
            step w s (.fetchClientWs req sock) =
              ({ s with
                  nextStreamId := s.nextStreamId + 1
                  nextToken := s.nextToken + 1
                  pendingHttpStreams := mset s.pendingHttpStreams
                    s.nextStreamId
                    { streamId := s.nextStreamId, token := s.nextToken
                      responseStarted := false, responseStatus := none
                      responseHeaders := none, msgSeq := 0, reqBodySeq := 0
                      pendingWsUpgrade := some sock }
                  armedTimers :=
                    ({ token := s.nextToken, streamId := s.nextStreamId,
                       kind := TimerKind.wsUpgradeTimeout sock } : TimerRec) ::
                      s.armedTimers
                  globalMsgSeq := s.globalMsgSeq + 1 },
               [Effect.acceptWebSocket sock,
                Effect.setTimer s.nextToken REQUEST_TIMEOUT_MS,
                Effect.sendCli (encodeHttpRequestInit w.nowMs s.connectionId
                  s.nextStreamId s.globalMsgSeq req.method req.pathAndQuery
                  req.headers false)]))]
          exact ⟨⟨hmem, htim, by show p < s.nextToken + 1; omega⟩,
            noSettle_cons (by simp [settles])
              (noSettle_cons (by simp [settles])
                (noSettle_cons (by simp [settles]) noSettle_nil))⟩
      · rw [(by simp [step, handleClientWebSocket, hopen] :
          step w s (.fetchClientWs req sock) = (s, []))]
        exact ⟨⟨h1, h2, h3⟩, noSettle_nil⟩
  | cliMessage m =>
      cases m with
      | text str => exact ⟨⟨h1, h2, h3⟩, noSettle_nil⟩
      | binary wire =>
          rcases hd : decodeEnvelope wire with e2 | env
          · rw [(by simp [step, handleCliMessage, hd] :
              step w s (.cliMessage (.binary wire)) =
                (s, [.logError ("Failed to decode message from CLI: " ++ e2)]))]
            exact ⟨⟨h1, h2, h3⟩,
              noSettle_cons (by simp [settles]) noSettle_nil⟩
          · cases env with
            | http sid cid seq m2 =>
                rw [(by simp [step, handleCliMessage, hd,
                    handleDecodedEnvelope] :
                  step w s (.cliMessage (.binary wire)) =
                    handleHttpMessage w s sid m2)]
                exact tokenFree_handleHttpMessage p w s sid m2 ⟨h1, h2, h3⟩
            | ws sid cid seq fr =>
                rw [(by simp [step, handleCliMessage, hd,
                    handleDecodedEnvelope] :
                  step w s (.cliMessage (.binary wire)) =
                    handleWebSocketFrame w s sid fr)]
                rcases hm : mget s.clientWsStreams sid with _ | cs
                · rw [(by simp [handleWebSocketFrame, hm] :
                    handleWebSocketFrame w s sid fr = (s, []))]
                  exact ⟨⟨h1, h2, h3⟩, noSettle_nil⟩
                · by_cases ho : w.isOpen cs.socketId = true
                  · cases hop : fr.opcode
                    · rw [(by simp [handleWebSocketFrame, hm, ho, hop] :
                        handleWebSocketFrame w s sid fr = (s, []))]
                      exact ⟨⟨h1, h2, h3⟩, noSettle_nil⟩
                    · rw [(by simp [handleWebSocketFrame, hm, ho, hop] :
                        handleWebSocketFrame w s sid fr =
                          (s, [.sendClientText cs.socketId fr.payload]))]
                      exact ⟨⟨h1, h2, h3⟩,
                        noSettle_cons (by simp [settles]) noSettle_nil⟩
                    · rw [(by simp [handleWebSocketFrame, hm, ho, hop] :
                        handleWebSocketFrame w s sid fr =
                          (s, [.sendClientBinary cs.socketId fr.payload]))]
                      exact ⟨⟨h1, h2, h3⟩,
                        noSettle_cons (by simp [settles]) noSettle_nil⟩
                    · rw [(by simp [handleWebSocketFrame, hm, ho, hop] :
                        handleWebSocketFrame w s sid fr =
                          ({ s with clientWsStreams :=
                              mdelete s.clientWsStreams sid },
                           [.closeSocket cs.socketId (fr.closeCode.getD 1000)
                              ""]))]
                      exact ⟨⟨h1, h2, h3⟩,
                        noSettle_cons (by simp [settles]) noSettle_nil⟩
                    · rw [(by simp [handleWebSocketFrame, hm, ho, hop] :
                        handleWebSocketFrame w s sid fr =
                          (s, [.sendClientBinary cs.socketId fr.payload]))]
                      exact ⟨⟨h1, h2, h3⟩,
                        noSettle_cons (by simp [settles]) noSettle_nil⟩
                    · rw [(by simp [handleWebSocketFrame, hm, ho, hop] :
                        handleWebSocketFrame w s sid fr = (s, []))]
                      exact ⟨⟨h1, h2, h3⟩, noSettle_nil⟩
                  · rw [(by simp [handleWebSocketFrame, hm, ho] :
                      handleWebSocketFrame w s sid fr = (s, []))]
                    exact ⟨⟨h1, h2, h3⟩, noSettle_nil⟩
            | control sid cid seq c =>
                rw [(by simp [step, handleCliMessage, hd,
                    handleDecodedEnvelope] :
                  step w s (.cliMessage (.binary wire)) =
                    handleControlMessage w s c)]
                cases c with
                | ping t data =>
                    by_cases hopen : s.cliOpen w = true
                    · rw [(by simp [handleControlMessage, hopen] :
                        handleControlMessage w s (.ping t data) =
                          (s, [.sendCli (encodeControlPong w.nowMs
                            s.connectionId (some data))]))]
                      exact ⟨⟨h1, h2, h3⟩,
                        noSettle_cons (by simp [settles]) noSettle_nil⟩
                    · rw [(by simp [handleControlMessage, hopen] :
                        handleControlMessage w s (.ping t data) = (s, []))]
                      exact ⟨⟨h1, h2, h3⟩, noSettle_nil⟩
                | pong t data => exact ⟨⟨h1, h2, h3⟩, noSettle_nil⟩
                | error t code msg =>
                    rw [(by simp [handleControlMessage] :
                      handleControlMessage w s (.error t code msg) =
                        (s, [.logError ("CLI error: code=" ++ toString code ++
                          " message=" ++ msg)]))]
                    exact ⟨⟨h1, h2, h3⟩,
                      noSettle_cons (by simp [settles]) noSettle_nil⟩
                | goAway t l r => exact ⟨⟨h1, h2, h3⟩, noSettle_nil⟩
  | clientWsMessage sid msg =>
      by_cases hopen : s.cliOpen w = true
      · rcases hm : mget s.clientWsStreams sid with _ | cs
        · rw [(by simp [step, handleClientWsMessage, hopen, hm] :
            step w s (.clientWsMessage sid msg) = (s, []))]
          exact ⟨⟨h1, h2, h3⟩, noSettle_nil⟩
        · cases msg with
          | text str =>
              rw [(by simp [step, handleClientWsMessage, hopen, hm] :
                step w s (.clientWsMessage sid (.text str)) =
                  ({ s with globalMsgSeq := s.globalMsgSeq + 1 },
                   [Effect.sendCli (encodeWebSocketFrame w.nowMs
                      s.connectionId sid s.globalMsgSeq .text (utf8Bytes str)
                      (some true) none)]))]
              exact ⟨⟨h1, h2, h3⟩,
                noSettle_cons (by simp [settles]) noSettle_nil⟩
          | binary b =>
              rw [(by simp [step, handleClientWsMessage, hopen, hm] :
                step w s (.clientWsMessage sid (.binary b)) =
                  ({ s with globalMsgSeq := s.globalMsgSeq + 1 },
                   [Effect.sendCli (encodeWebSocketFrame w.nowMs
                      s.connectionId sid s.globalMsgSeq .binary b
                      (some true) none)]))]
              exact ⟨⟨h1, h2, h3⟩,
                noSettle_cons (by simp [settles]) noSettle_nil⟩
      · rw [(by simp [step, handleClientWsMessage, hopen] :
          step w s (.clientWsMessage sid msg) = (s, []))]
        exact ⟨⟨h1, h2, h3⟩, noSettle_nil⟩
  | cliSocketClosed code reason =>
      have heqs : (handleCliDisconnect w s code reason).1 =
          { s with
              cliSocket := none, pendingHttpStreams := [],
              clientWsStreams := [],
              armedTimers := s.armedTimers.filter fun t =>
                !((s.pendingHttpStreams.map fun kv => kv.2.token).contains
                  t.token) } := by
        simp [handleCliDisconnect, failAllPendingStreams]
      have heffs : (handleCliDisconnect w s code reason).2 =
          (match s.tunnelPublicId with
            | some tid => [Effect.dbUpdateStatus tid "offline"]
            | none => []) ++
            (failEffects s.pendingHttpStreams "CLI disconnected" ++
              closeClientEffects w s.clientWsStreams) := by
        simp [handleCliDisconnect, failAllPendingStreams]
      have hstep : step w s (.cliSocketClosed code reason) =
          handleCliDisconnect w s code reason := rfl
      rw [hstep]
      constructor
      · rw [heqs]
        refine ⟨?_, ?_, ?_⟩
        · intro kv hkv
          exact absurd hkv (List.not_mem_nil kv)
        · intro t ht
          exact h2 t (List.mem_filter.mp ht).1
        · exact h3
      · rw [heffs]
        refine noSettle_append ?_
          (noSettle_append (noSettle_failEffects h1)
            (noSettle_closeClientEffects w _))
        rcases s.tunnelPublicId with _ | tid
        · exact noSettle_nil
        · exact noSettle_cons (by simp [settles]) noSettle_nil
  | clientWsSocketClosed sid code reason =>
      by_cases hopen : SessionState.cliOpen
          { s with clientWsStreams := mdelete s.clientWsStreams sid } w = true
      · rw [(by simp [step, handleClientWsClose, hopen] :
          step w s (.clientWsSocketClosed sid code reason) =
            ({ s with
                clientWsStreams := mdelete s.clientWsStreams sid
                globalMsgSeq := s.globalMsgSeq + 1 },
             [Effect.sendCli (encodeWebSocketFrame w.nowMs s.connectionId sid
                s.globalMsgSeq .close [] none (some code))]))]
        exact ⟨⟨h1, h2, h3⟩, noSettle_cons (by simp [settles]) noSettle_nil⟩
      · rw [(by simp [step, handleClientWsClose, hopen] :
          step w s (.clientWsSocketClosed sid code reason) =
            ({ s with clientWsStreams := mdelete s.clientWsStreams sid }, []))]
        exact ⟨⟨h1, h2, h3⟩, noSettle_nil⟩
  | timer token =>
      rcases hf : s.armedTimers.find? (fun t => t.token == token) with _ | tr
      · rw [(by simp [step, timerFire, hf] :
          step w s (.timer token) = (s, []))]
        exact ⟨⟨h1, h2, h3⟩, noSettle_nil⟩
      · have htr : tr ∈ s.armedTimers := List.mem_of_find?_eq_some hf
        have htokp : token ≠ p := by
          have heqt : tr.token = token := by simpa using List.find?_some hf
          rw [← heqt]
          exact h2 tr htr
        have hdel : ∀ kv ∈ mdelete s.pendingHttpStreams tr.streamId,
            kv.2.token ≠ p := fun kv hkv => h1 kv (mem_mdelete hkv)
        have hdis : ∀ t2 ∈ disarm s.armedTimers token, t2.token ≠ p :=
          fun t2 ht2 => h2 t2 (mem_disarm ht2).1
        cases hk : tr.kind with
        | httpTimeout =>
            rcases hm : mget s.pendingHttpStreams tr.streamId with _ | st
            · rw [(by simp [step, timerFire, hf, hk, hm] :
                step w s (.timer token) =
                  ({ s with armedTimers := disarm s.armedTimers token },
                   [.rejectResponse token "Request timeout"]))]
              exact ⟨⟨h1, hdis, h3⟩,
                noSettle_cons (by simp [settles, htokp]) noSettle_nil⟩
            · have hst : st.token ≠ p := h1 (tr.streamId, st) (mget_mem hm)
              by_cases hopen : SessionState.cliOpen
                  { s with
                    armedTimers := disarm s.armedTimers token
                    pendingHttpStreams :=
                      mdelete s.pendingHttpStreams tr.streamId } w = true
              · rw [(by simp [step, timerFire, hf, hk, hm, hopen] :
                  step w s (.timer token) =
                    ({ s with
                        armedTimers := disarm s.armedTimers token
                        pendingHttpStreams :=
                          mdelete s.pendingHttpStreams tr.streamId
                        globalMsgSeq := s.globalMsgSeq + 1 },
                     [.writerAbort st.token "Request timeout",
                      .sendCli (encodeHttpRequestAbort w.nowMs s.connectionId
                        tr.streamId s.globalMsgSeq .timeout "Request timeout"),
                      .rejectResponse token "Request timeout"]))]
                exact ⟨⟨hdel, hdis, h3⟩,
                  noSettle_cons (by simp [settles])
                    (noSettle_cons (by simp [settles])
                      (noSettle_cons (by simp [settles, htokp]) noSettle_nil))⟩
              · rw [(by simp [step, timerFire, hf, hk, hm, hopen] :
                  step w s (.timer token) =
                    ({ s with
                        armedTimers := disarm s.armedTimers token
                        pendingHttpStreams :=
                          mdelete s.pendingHttpStreams tr.streamId },
                     [.writerAbort st.token "Request timeout",
                      .rejectResponse token "Request timeout"]))]
                exact ⟨⟨hdel, hdis, h3⟩,
                  noSettle_cons (by simp [settles])
                    (noSettle_cons (by simp [settles, htokp]) noSettle_nil)⟩
        | wsUpgradeTimeout sock =>
            rcases hm : mget s.pendingHttpStreams tr.streamId with _ | st
            · rw [(by simp [step, timerFire, hf, hk, hm] :
                step w s (.timer token) =
                  ({ s with armedTimers := disarm s.armedTimers token }, []))]
              exact ⟨⟨h1, hdis, h3⟩, noSettle_nil⟩
            · by_cases ho : w.isOpen sock = true
              · rw [(by simp [step, timerFire, hf, hk, hm, ho] :
                  step w s (.timer token) =
                    ({ s with
                        armedTimers := disarm s.armedTimers token
                        pendingHttpStreams :=
                          mdelete s.pendingHttpStreams tr.streamId },
                     [.closeSocket sock 1011 "WebSocket upgrade timeout"]))]
                exact ⟨⟨hdel, hdis, h3⟩,
                  noSettle_cons (by simp [settles]) noSettle_nil⟩
              · rw [(by simp [step, timerFire, hf, hk, hm, ho] :
                  step w s (.timer token) =
                    ({ s with
                        armedTimers := disarm s.armedTimers token
                        pendingHttpStreams :=
                          mdelete s.pendingHttpStreams tr.streamId }, []))]
                exact ⟨⟨hdel, hdis, h3⟩, noSettle_nil⟩
  | bodyRead sid item =>
      rcases hm : mget s.pendingHttpStreams sid with _ | st
      · rw [(by simp [step, streamRequestBodyStep, hm] :
          step w s (.bodyRead sid item) = (s, []))]
        exact ⟨⟨h1, h2, h3⟩, noSettle_nil⟩
      · by_cases hopen : s.cliOpen w = true
        · cases item with
          | none =>
              rw [(by simp [step, streamRequestBodyStep, hm, hopen] :
                step w s (.bodyRead sid none) =
                  ({ s with globalMsgSeq := s.globalMsgSeq + 1 },
                   [Effect.sendCli (encodeHttpRequestEnd w.nowMs
                      s.connectionId sid s.globalMsgSeq)]))]
              exact ⟨⟨h1, h2, h3⟩,
                noSettle_cons (by simp [settles]) noSettle_nil⟩
          | some bytes =>
              have hmem2 : ∀ kv ∈ mset s.pendingHttpStreams sid
                  { st with reqBodySeq := st.reqBodySeq + 1 },
                  kv.2.token ≠ p := by
                intro kv hkv
                rcases mem_mset hkv with hkv | hkv
                · exact h1 kv hkv
                · rw [hkv]
                  show ({ st with reqBodySeq := st.reqBodySeq + 1 } :
                    PendingHttpStream).token ≠ p
                  simpa using h1 (sid, st) (mget_mem hm)
              rw [(by simp [step, streamRequestBodyStep, hm, hopen] :
                step w s (.bodyRead sid (some bytes)) =
                  ({ s with
                      globalMsgSeq := s.globalMsgSeq + 1
                      pendingHttpStreams := mset s.pendingHttpStreams sid
                        { st with reqBodySeq := st.reqBodySeq + 1 } },
                   [Effect.sendCli (encodeHttpBodyChunk w.nowMs
                      s.connectionId sid s.globalMsgSeq bytes st.reqBodySeq
                      false true)]))]
              exact ⟨⟨hmem2, h2, h3⟩,
                noSettle_cons (by simp [settles]) noSettle_nil⟩
        · rw [(by simp [step, streamRequestBodyStep, hm, hopen] :
            step w s (.bodyRead sid item) = (s, []))]
          exact ⟨⟨h1, h2, h3⟩, noSettle_nil⟩
  | bodyReadError sid msg =>
      by_cases hc : (s.cliOpen w &&
          (mget s.pendingHttpStreams sid).isSome) = true
      · rw [(by simp [step, streamRequestBodyError, hc] :
          step w s (.bodyReadError sid msg) =
            ({ s with globalMsgSeq := s.globalMsgSeq + 1 },
             [Effect.sendCli (encodeHttpRequestAbort w.nowMs s.connectionId
                sid s.globalMsgSeq .cancelled msg)]))]
        exact ⟨⟨h1, h2, h3⟩, noSettle_cons (by simp [settles]) noSettle_nil⟩
      · rw [(by simp [step, streamRequestBodyError, hc] :
          step w s (.bodyReadError sid msg) = (s, []))]
        exact ⟨⟨h1, h2, h3⟩, noSettle_nil⟩

/-- Along any event trace from a token-free state, the dead promise is
never settled. -/
theorem tokenFree_run (p : Nat) (tr : List (World × Event)) (s : SessionState)
    (h : TokenFree p s) :
    TokenFree p (run s tr).1 ∧ NoSettle p (run s tr).2 := by
  induction tr generalizing s with
  | nil => exact ⟨h, noSettle_nil⟩
  | cons we rest ih =>
      obtain ⟨h1', h2'⟩ := tokenFree_step p we.1 s we.2 h
      obtain ⟨h3', h4'⟩ := ih (step we.1 s we.2).1 h1'
      exact ⟨h3', by simpa [run] using noSettle_append h2' h4'⟩

/-- C10: a `responseEnd` arriving for a pending HTTP stream before any
`responseInit` (response not started) cancels the stream's deadline and
removes the stream, emitting only the timer-clear — the waiting promise is
neither resolved nor rejected; and along any continuation of the trace that
promise is never settled, so the public client never receives a response
for that exchange. -/
theorem c10_responseEnd_unstarted (w : World) (s : SessionState)
    (sid t : Nat) (st : PendingHttpStream)
    (hstream : mget s.pendingHttpStreams sid = some st)
    (hstarted : st.responseStarted = false)
    (huniq : ∀ kv ∈ mdelete s.pendingHttpStreams sid, kv.2.token ≠ st.token)
    (hbound : st.token < s.nextToken) :
    handleHttpMessage w s sid (.responseEnd t) =
      ({ s with
          armedTimers := disarm s.armedTimers st.token
          pendingHttpStreams := mdelete s.pendingHttpStreams sid },
       [.clearTimer st.token]) ∧
    (∀ tr : List (World × Event),
      NoSettle st.token
        (run { s with
            armedTimers := disarm s.armedTimers st.token
            pendingHttpStreams := mdelete s.pendingHttpStreams sid } tr).2) := by
  constructor
  · simp [handleHttpMessage, hstream, hstarted]
  · intro tr
    refine (tokenFree_run st.token tr
      { s with
          armedTimers := disarm s.armedTimers st.token
          pendingHttpStreams := mdelete s.pendingHttpStreams sid }
      ⟨huniq, ?_, hbound⟩).2
    intro t2 ht2
    exact (mem_disarm ht2).2

/-- C10 witness: the theorem at the concrete one-stream session and a
concrete continuation trace. -/
theorem c10_witness :
    (handleHttpMessage wAll sOnePending 1 (.responseEnd 5) =
      ({ sOnePending with
          armedTimers := disarm sOnePending.armedTimers samplePending.token
          pendingHttpStreams := mdelete sOnePending.pendingHttpStreams 1 },
       [.clearTimer samplePending.token])) ∧
    NoSettle samplePending.token
      (run { sOnePending with
          armedTimers := disarm sOnePending.armedTimers samplePending.token
          pendingHttpStreams := mdelete sOnePending.pendingHttpStreams 1 }
        [(wAll, .fetchHttp reqPlain)]).2 := by
  have h := c10_responseEnd_unstarted wAll sOnePending 1 5 samplePending
    rfl rfl (by decide) (by decide)
  exact ⟨h.1, h.2 [(wAll, .fetchHttp reqPlain)]⟩

end DOTunnel
